import Mathlib

/-!
Backlight notification (BLN) blink controller: `drivers/misc/bln.c`

A shallow embedding of the driver. The file-scope variables of `bln.c` become the fields of
`State`; every C function becomes a function on `State`. The calls the driver makes into its
collaborators (the registered backlight implementation, the wakelock, the timer and the work
queue) are appended to `State.trace`, in program order, so that "which call was made" can be
stated. Kernel log output (`pr_info`, `pr_devel`, `pr_err`) is not recorded.
-/

namespace Bln

/-! ## Machine integers -/

/-- Conversion of a C `int` to `unsigned int` / `uint32_t`; also the number a `%u` conversion
prints for an `int` argument. -/
def to_u32 (x : Int) : Nat := (x % 4294967296).toNat

/-- Conversion of an `unsigned int` to a C `int` (two's complement wrap-around). -/
def to_int (d : Nat) : Int :=
  if d % 4294967296 < 2147483648 then ((d % 4294967296 : Nat) : Int)
  else ((d % 4294967296 : Nat) : Int) - 4294967296

/-! ## Data model -/

/-- Calls that leave the driver: into the registered `struct bln_implementation`
(identified by a number standing for the pointer), the wakelock API, the timer API and the
work queue. The argument of `add_timer` / `mod_timer` is the delay in milliseconds that was
passed to `msecs_to_jiffies` when the expiry time was computed. -/
inductive Call
  | imp_enable (imp : Nat)
  | imp_disable (imp : Nat)
  | wake_lock
  | wake_unlock
  | add_timer (ms : Nat)
  | mod_timer (ms : Nat)
  | del_timer
  | schedule_work
  deriving DecidableEq, Repr

/-- The file-scope state of `bln.c`, together with the state of the kernel objects it owns
(`bln_wake_lock`, `blink_timer`, `blink_work`) and the trace of outgoing calls. -/
structure State where
  /-- Variable `static bool bln_enabled` -/
  bln_enabled : Bool
  /-- Variable `static bool bln_ongoing` -/
  bln_ongoing : Bool
  /-- Variable `static int bln_blink_state` -/
  bln_blink_state : Int
  /-- Variable `static int bln_blink_interval` -/
  bln_blink_interval : Int
  /-- Variable `static int bln_blink_max_count` -/
  bln_blink_max_count : Int
  /-- Variable `static bool bln_suspended` -/
  bln_suspended : Bool
  /-- Variable `static struct bln_implementation *bln_imp`; `none` is `NULL`. -/
  bln_imp : Option Nat
  /-- Variable `static bool in_kernel_blink` -/
  in_kernel_blink : Bool
  /-- Variable `static uint32_t blink_count` -/
  blink_count : Nat
  /-- Variable `static struct wake_lock bln_wake_lock`: whether the lock is active. -/
  bln_wake_lock : Bool
  /-- Variable `static struct timer_list blink_timer`: `some ms` while the timer is pending, armed
  to expire `msecs_to_jiffies(ms)` after it was armed; `none` while it is not pending. -/
  blink_timer : Option Nat
  /-- Variable `static DECLARE_WORK(blink_work, blink_callback)`: whether the work item is queued. -/
  blink_work : Bool
  /-- Set once `add_timer` has been called on a timer that was already pending. -/
  timer_fault : Bool
  /-- Outgoing calls, oldest first. -/
  trace : List Call
  deriving DecidableEq, Repr

/-- The state at module load: the initialisers of `bln.c` lines 21-37. -/
def init : State :=
  { bln_enabled := false
    bln_ongoing := false
    bln_blink_state := 0
    bln_blink_interval := 500
    bln_blink_max_count := 600
    bln_suspended := false
    bln_imp := none
    in_kernel_blink := false
    blink_count := 0
    bln_wake_lock := false
    blink_timer := none
    blink_work := false
    timer_fault := false
    trace := [] }

/-! ## Kernel collaborators -/

/-- Modelled from the spec: `wake_lock_active` of the kernel wakelock API, not part of
`bln.c`; the wakelock is "a handle preventing system sleep while held". -/
def wake_lock_active (s : State) : Bool := s.bln_wake_lock

/-- Modelled from the spec: `wake_lock` of the kernel wakelock API, not part of `bln.c`;
it takes the underlying lock. -/
def wake_lock (s : State) : State :=
  { s with bln_wake_lock := true, trace := s.trace ++ [Call.wake_lock] }

/-- Modelled from the spec: `wake_unlock` of the kernel wakelock API, not part of `bln.c`;
it releases the underlying lock. -/
def wake_unlock (s : State) : State :=
  { s with bln_wake_lock := false, trace := s.trace ++ [Call.wake_unlock] }

/-- Modelled from the spec: `timer_pending` of the kernel timer API, not part of `bln.c`;
whether the blink timer is currently armed. -/
def timer_pending (s : State) : Bool := s.blink_timer.isSome

/-- Modelled from the spec: `add_timer` of the kernel timer API, not part of `bln.c`; the
"insert" operation, which arms the timer and must not be used on an already-armed timer
(the source comment says that doing so "results in a panic"; recorded in `timer_fault`). -/
def add_timer (s : State) (ms : Nat) : State :=
  { s with blink_timer := some ms
           timer_fault := s.timer_fault || s.blink_timer.isSome
           trace := s.trace ++ [Call.add_timer ms] }

/-- Modelled from the spec: `mod_timer` of the kernel timer API, not part of `bln.c`; the
"replace" operation, which arms the timer for the new expiry whether or not it was armed. -/
def mod_timer (s : State) (ms : Nat) : State :=
  { s with blink_timer := some ms, trace := s.trace ++ [Call.mod_timer ms] }

/-- Modelled from the spec: `del_timer` of the kernel timer API, not part of `bln.c`; it
cancels the timer (harmless when the timer is not armed). -/
def del_timer (s : State) : State :=
  { s with blink_timer := none, trace := s.trace ++ [Call.del_timer] }

/-- Modelled from the spec: `schedule_work` of the kernel work queue, not part of `bln.c`;
it queues the deferred work item, and "re-invocation while a prior item is still queued
must not create duplicate" instances. -/
def schedule_work (s : State) : State :=
  { s with blink_work := true, trace := s.trace ++ [Call.schedule_work] }

/-! ## The driver (`bln.c`) -/

/-- Function `bln_enable_backlights`, lines 41-45. -/
def bln_enable_backlights (s : State) : State :=
  match s.bln_imp with
  | some imp => { s with trace := s.trace ++ [Call.imp_enable imp] }
  | none => s

/-- Function `bln_disable_backlights`, lines 47-51. -/
def bln_disable_backlights (s : State) : State :=
  match s.bln_imp with
  | some imp => { s with trace := s.trace ++ [Call.imp_disable imp] }
  | none => s

/-- Function `bln_early_suspend`, lines 53-56. -/
def bln_early_suspend (s : State) : State := { s with bln_suspended := true }

/-- Function `bln_late_resume`, lines 58-61. -/
def bln_late_resume (s : State) : State := { s with bln_suspended := false }

/-- Function `register_bln_implementation`, lines 311-314; `none` is a `NULL` pointer. -/
def register_bln_implementation (s : State) (imp : Option Nat) : State :=
  { s with bln_imp := imp }

/-- Function `bln_is_ongoing`, lines 317-320. -/
def bln_is_ongoing (s : State) : Bool := s.bln_ongoing

/-- Function `bln_wakelock_acquire`, lines 334-339. -/
def bln_wakelock_acquire (s : State) : State :=
  if !wake_lock_active s then wake_lock s else s

/-- Function `bln_wakelock_release`, lines 342-347. -/
def bln_wakelock_release (s : State) : State :=
  if wake_lock_active s then wake_unlock s else s

/-- Function `enable_led_notification`, lines 69-96 (the spec's `startNotification`). The local
`expires` is the delay from `jiffies` stored into `blink_timer.expires`. -/
def enable_led_notification (s : State) : State :=
  if !s.bln_enabled then s
  else
    let s1 :=
      if s.in_kernel_blink then
        let a := bln_wakelock_acquire s
        let expires := to_u32 a.bln_blink_interval
        let b := { a with blink_count := to_u32 a.bln_blink_max_count }
        if timer_pending b then mod_timer b expires else add_timer b expires
      else s
    let s2 := bln_enable_backlights s1
    { s2 with bln_ongoing := true }

/-- Function `disable_led_notification`, lines 98-113 (the spec's `stopNotification`). -/
def disable_led_notification (s : State) : State :=
  let s1 := { s with bln_blink_state := 0, bln_ongoing := false }
  let s2 := if s1.bln_suspended then bln_disable_backlights s1 else s1
  let s3 := if s2.in_kernel_blink then del_timer s2 else s2
  bln_wakelock_release s3

/-- Function `blink_callback`, lines 350-366: the deferred phase-toggle work. `--blink_count` is a
`uint32_t` pre-decrement, so it wraps modulo `2^32`. -/
def blink_callback (s : State) : State :=
  let s1 := { s with blink_count := (s.blink_count + 4294967295) % 4294967296 }
  if s1.blink_count = 0 then
    bln_wakelock_release (del_timer (bln_enable_backlights s1))
  else
    let s2 := if s1.bln_blink_state ≠ 0 then bln_enable_backlights s1
              else bln_disable_backlights s1
    { s2 with bln_blink_state := if s2.bln_blink_state = 0 then 1 else 0 }

/-- Function `blink_timer_callback`, lines 368-372: the timer expiry handler. -/
def blink_timer_callback (s : State) : State :=
  mod_timer (schedule_work s) (to_u32 s.bln_blink_interval)

/-! ### Attribute files

A write handler receives the outcome of `sscanf(buf, "%u\n", &data)`: `none` when the
conversion failed, `some data` when it returned 1. It returns the new state and the
handler's return value. A read handler returns the number that its `sprintf("%u\n", ...)`
prints. -/

/-- Function `backlightnotification_status_read`, lines 115-119 (attribute `enabled`). -/
def backlightnotification_status_read (s : State) : Nat := if s.bln_enabled then 1 else 0

/-- Function `backlightnotification_status_write`, lines 121-144 (attribute `enabled`). -/
def backlightnotification_status_write (s : State) (buf : Option Nat) (size : Nat) :
    State × Nat :=
  match buf with
  | some data =>
    if data = 1 then ({ s with bln_enabled := true }, size)
    else if data = 0 then
      let s1 := { s with bln_enabled := false }
      (if s1.bln_ongoing then disable_led_notification s1 else s1, size)
    else (s, size)
  | none => (s, size)

/-- Function `notification_led_status_read`, lines 146-150. -/
def notification_led_status_read (s : State) : Nat := if s.bln_ongoing then 1 else 0

/-- Function `notification_led_status_write`, lines 152-169. -/
def notification_led_status_write (s : State) (buf : Option Nat) (size : Nat) :
    State × Nat :=
  match buf with
  | some data =>
    if data = 1 then (enable_led_notification s, size)
    else if data = 0 then (disable_led_notification s, size)
    else (s, size)
  | none => (s, size)

/-- Function `in_kernel_blink_status_read`, lines 171-175. -/
def in_kernel_blink_status_read (s : State) : Nat := if s.in_kernel_blink then 1 else 0

/-- Function `in_kernel_blink_status_write`, lines 177-188: `in_kernel_blink = !!(data)`. -/
def in_kernel_blink_status_write (s : State) (buf : Option Nat) (size : Nat) :
    State × Nat :=
  match buf with
  | some data => ({ s with in_kernel_blink := decide (data ≠ 0) }, size)
  | none => (s, size)

/-- Function `blink_control_read`, lines 189-193. -/
def blink_control_read (s : State) : Nat := to_u32 s.bln_blink_state

/-- Function `blink_control_write`, lines 195-218. -/
def blink_control_write (s : State) (buf : Option Nat) (size : Nat) : State × Nat :=
  if !s.bln_ongoing then (s, size)
  else
    match buf with
    | some data =>
      if data = 1 then (bln_disable_backlights { s with bln_blink_state := 1 }, size)
      else if data = 0 then (bln_enable_backlights { s with bln_blink_state := 0 }, size)
      else (s, size)
    | none => (s, size)

/-- Function `blink_interval_read`, lines 220-224. -/
def blink_interval_read (s : State) : Nat := to_u32 s.bln_blink_interval

/-- Function `blink_interval_write`, lines 226-241. -/
def blink_interval_write (s : State) (buf : Option Nat) (size : Nat) : State × Nat :=
  match buf with
  | some data =>
    if data > 0 then ({ s with bln_blink_interval := to_int data }, size)
    else (s, size)
  | none => (s, size)

/-- Function `blink_maxtime_read`, lines 243-247. -/
def blink_maxtime_read (s : State) : Nat := to_u32 s.bln_blink_max_count

/-- Function `blink_maxtime_write`, lines 249-264. -/
def blink_maxtime_write (s : State) (buf : Option Nat) (size : Nat) : State × Nat :=
  match buf with
  | some data =>
    if data > 0 then ({ s with bln_blink_max_count := to_int data }, size)
    else (s, size)
  | none => (s, size)

/-- Function `backlightnotification_version`, lines 266-270: `BACKLIGHTNOTIFICATION_VERSION`. -/
def backlightnotification_version (_s : State) : Nat := 9

/-! ## Execution model -/

/-- Modelled from the spec: the kernel timer wheel, not part of `bln.c`. An armed timer
expires: it is taken off the pending list and its handler `blink_timer_callback` runs.
Nothing happens while no timer is armed. -/
def timer_expiry (s : State) : State :=
  if timer_pending s then blink_timer_callback { s with blink_timer := none } else s

/-- Modelled from the spec: the kernel work queue, not part of `bln.c`. A queued work item
is taken off the queue and its function `blink_callback` runs in the deferred context.
Nothing happens while the item is not queued. -/
def run_work (s : State) : State :=
  if s.blink_work then blink_callback { s with blink_work := false } else s

/-- Everything that can happen to the driver. -/
inductive Op
  /-- a write to the `enabled` attribute -/
  | enabled_write (buf : Option Nat) (size : Nat)
  /-- a write to the `notification_led` attribute -/
  | notification_led_write (buf : Option Nat) (size : Nat)
  /-- a write to the `in_kernel_blink` attribute -/
  | in_kernel_blink_write (buf : Option Nat) (size : Nat)
  /-- a write to the `blink_control` attribute -/
  | blink_control_write (buf : Option Nat) (size : Nat)
  /-- a write to the `blink_interval` attribute -/
  | blink_interval_write (buf : Option Nat) (size : Nat)
  /-- a write to the `blink_maxtime` attribute -/
  | blink_maxtime_write (buf : Option Nat) (size : Nat)
  /-- the early-suspend edge (screen blanked) -/
  | early_suspend
  /-- the late-resume edge (screen unblanked) -/
  | late_resume
  /-- a platform driver registers an implementation -/
  | register (imp : Option Nat)
  /-- the blink timer expires, if it is armed -/
  | timer_expiry
  /-- the work queue runs the deferred work, if it is queued -/
  | run_work
  /-- the deferred work function is invoked, whether or not it was queued (more than the
  work queue does on its own: it runs the function only through `run_work`) -/
  | blink_callback
  deriving DecidableEq, Repr

/-- One step of the driver. -/
def step (s : State) : Op → State
  | Op.enabled_write buf size => (backlightnotification_status_write s buf size).1
  | Op.notification_led_write buf size => (notification_led_status_write s buf size).1
  | Op.in_kernel_blink_write buf size => (in_kernel_blink_status_write s buf size).1
  | Op.blink_control_write buf size => (blink_control_write s buf size).1
  | Op.blink_interval_write buf size => (blink_interval_write s buf size).1
  | Op.blink_maxtime_write buf size => (blink_maxtime_write s buf size).1
  | Op.early_suspend => bln_early_suspend s
  | Op.late_resume => bln_late_resume s
  | Op.register imp => register_bln_implementation s imp
  | Op.timer_expiry => timer_expiry s
  | Op.run_work => run_work s
  | Op.blink_callback => blink_callback s

/-- The state after a sequence of steps, first element first. -/
def run (s : State) (ops : List Op) : State := ops.foldl step s


/-- Whether a sequence of steps, started in `s`, never clears `in_kernel_blink` while the
blink timer is armed. -/
def blink_mode_kept : State → List Op → Bool
  | _, [] => true
  | s, op :: ops =>
    (!(timer_pending s && s.in_kernel_blink) || (step s op).in_kernel_blink)
      && blink_mode_kept (step s op) ops

/-- Number of times `blink_callback` runs during a sequence of steps started in `s`:
once for each `Op.blink_callback`, and once for each `Op.run_work` that finds the work item
queued. -/
def invocations : State → List Op → Nat
  | _, [] => 0
  | s, op :: ops =>
    (match op with
     | Op.blink_callback => 1
     | Op.run_work => if s.blink_work then 1 else 0
     | _ => 0) + invocations (step s op) ops

/-- What the trace says about the backlight: `some true` when the last call into an
implementation was `enable()`, `some false` when it was `disable()`, `none` when no such
call was made. -/
def backlight_lit (t : List Call) : Option Bool :=
  t.foldl (fun acc c =>
    match c with
    | Call.imp_enable _ => some true
    | Call.imp_disable _ => some false
    | _ => acc) none

/-- Whether a call is an `add_timer`. -/
def is_add_timer : Call → Bool
  | Call.add_timer _ => true
  | _ => false

/-- The state of the scenario `enabled = 1`, `in_kernel_blink = 1`, `blink_maxtime = 3`,
`notification_led = 1`, written after implementation `imp` has registered. -/
def scenario_blink3 (imp : Nat) : State :=
  run init [Op.register (some imp), Op.enabled_write (some 1) 2,
    Op.in_kernel_blink_write (some 1) 2, Op.blink_maxtime_write (some 3) 2,
    Op.notification_led_write (some 1) 2]

/-- The scenario of a manually driven blink, after implementation `imp` has registered:
`enabled = 1`, `in_kernel_blink = 0`, `notification_led = 1`, `blink_control = 1`,
`blink_control = 0`. -/
def manual_blink_ops (imp : Nat) : List Op :=
  [Op.register (some imp), Op.enabled_write (some 1) 2, Op.in_kernel_blink_write (some 0) 2,
   Op.notification_led_write (some 1) 2, Op.blink_control_write (some 1) 2,
   Op.blink_control_write (some 0) 2]

/-- Whether a call goes to a backlight implementation. -/
def is_backlight_call : Call → Bool
  | Call.imp_enable _ => true
  | Call.imp_disable _ => true
  | _ => false

/-- Whether the value parsed for an attribute write, if any, fits the `unsigned int` that
`sscanf` stores it in. -/
def op_data_u32 : Op → Bool
  | Op.enabled_write (some d) _ => decide (d < 4294967296)
  | Op.notification_led_write (some d) _ => decide (d < 4294967296)
  | Op.in_kernel_blink_write (some d) _ => decide (d < 4294967296)
  | Op.blink_control_write (some d) _ => decide (d < 4294967296)
  | Op.blink_interval_write (some d) _ => decide (d < 4294967296)
  | Op.blink_maxtime_write (some d) _ => decide (d < 4294967296)
  | _ => true

/-- Whether step `op`, taken in state `s`, runs the deferred work function only if the
blink timer is armed: a direct call needs an armed timer, and so does a run of the work
queue that finds the work item queued. -/
def work_armed_at (s : State) : Op → Bool
  | Op.blink_callback => timer_pending s
  | Op.run_work => !s.blink_work || timer_pending s
  | _ => true

/-- Whether, in a sequence of steps started in `s`, the deferred work function runs only
while the blink timer is armed. -/
def work_only_armed : State → List Op → Bool
  | _, [] => true
  | s, op :: ops => work_armed_at s op && work_only_armed (step s op) ops

/-- The calls to `wake_lock` and `wake_unlock` in the trace balance: there is one more
`wake_lock` than `wake_unlock` while the lock is held, and as many otherwise. -/
def lock_balanced (s : State) : Prop :=
  s.trace.count Call.wake_lock
    = s.trace.count Call.wake_unlock + (if s.bln_wake_lock then 1 else 0)

/-- The countdown is in order: maximum count and interval are not zero as `uint32_t`,
`blink_count` is a `uint32_t`, and it is at least 1 while the timer is armed. -/
def countdown_ok (s : State) : Prop :=
  to_u32 s.bln_blink_max_count ≠ 0 ∧ to_u32 s.bln_blink_interval ≠ 0 ∧
  s.blink_count < 4294967296 ∧ (timer_pending s = true → 1 ≤ s.blink_count)

/-! ## Basic facts -/

theorem bln_enable_backlights_eq (s : State) :
    bln_enable_backlights s
      = { s with trace := s.trace ++ (s.bln_imp.map Call.imp_enable).toList } := by
  obtain ⟨_, _, _, _, _, _, imp, _, _, _, _, _, _, _⟩ := s
  cases imp <;> simp [bln_enable_backlights]

theorem bln_disable_backlights_eq (s : State) :
    bln_disable_backlights s
      = { s with trace := s.trace ++ (s.bln_imp.map Call.imp_disable).toList } := by
  obtain ⟨_, _, _, _, _, _, imp, _, _, _, _, _, _, _⟩ := s
  cases imp <;> simp [bln_disable_backlights]

/-- What `enable_led_notification` does, as one update of the state. -/
theorem enable_led_notification_eq (s : State) :
    enable_led_notification s =
      if s.bln_enabled then
        { s with
          bln_ongoing := true
          blink_count := if s.in_kernel_blink then to_u32 s.bln_blink_max_count
                         else s.blink_count
          bln_wake_lock := s.bln_wake_lock || s.in_kernel_blink
          blink_timer := if s.in_kernel_blink then some (to_u32 s.bln_blink_interval)
                         else s.blink_timer
          trace := s.trace ++
            (if s.in_kernel_blink then
              (if s.bln_wake_lock then [] else [Call.wake_lock]) ++
              [if s.blink_timer.isSome then Call.mod_timer (to_u32 s.bln_blink_interval)
               else Call.add_timer (to_u32 s.bln_blink_interval)]
             else []) ++ (s.bln_imp.map Call.imp_enable).toList }
      else s := by
  obtain ⟨en, og, bs, bi, bm, su, imp, ikb, bc, wl, tm, wk, tf, tr⟩ := s
  cases en <;> cases ikb <;> cases wl <;> cases tm <;>
    simp [enable_led_notification, bln_wakelock_acquire, wake_lock_active, wake_lock,
      timer_pending, add_timer, mod_timer, bln_enable_backlights_eq]

/-- What `disable_led_notification` does, as one update of the state. -/
theorem disable_led_notification_eq (s : State) :
    disable_led_notification s =
      { s with
        bln_blink_state := 0
        bln_ongoing := false
        bln_wake_lock := false
        blink_timer := if s.in_kernel_blink then none else s.blink_timer
        trace := s.trace ++
          (if s.bln_suspended then (s.bln_imp.map Call.imp_disable).toList else []) ++
          (if s.in_kernel_blink then [Call.del_timer] else []) ++
          (if s.bln_wake_lock then [Call.wake_unlock] else []) } := by
  obtain ⟨en, og, bs, bi, bm, su, imp, ikb, bc, wl, tm, wk, tf, tr⟩ := s
  cases su <;> cases ikb <;> cases wl <;>
    simp [disable_led_notification, bln_wakelock_release, wake_lock_active, wake_unlock,
      del_timer, bln_disable_backlights_eq]

/-- What `blink_callback` does, as one update of the state. -/
theorem blink_callback_eq (s : State) :
    blink_callback s =
      if (s.blink_count + 4294967295) % 4294967296 = 0 then
        { s with
          blink_count := 0
          bln_wake_lock := false
          blink_timer := none
          trace := s.trace ++ (s.bln_imp.map Call.imp_enable).toList ++ [Call.del_timer] ++
            (if s.bln_wake_lock then [Call.wake_unlock] else []) }
      else
        { s with
          blink_count := (s.blink_count + 4294967295) % 4294967296
          bln_blink_state := if s.bln_blink_state = 0 then 1 else 0
          trace := s.trace ++
            (if s.bln_blink_state ≠ 0 then (s.bln_imp.map Call.imp_enable).toList
             else (s.bln_imp.map Call.imp_disable).toList) } := by
  obtain ⟨en, og, bs, bi, bm, su, imp, ikb, bc, wl, tm, wk, tf, tr⟩ := s
  by_cases hc : (bc + 4294967295) % 4294967296 = 0 <;> by_cases hb : bs = 0 <;>
    cases wl <;>
    simp [blink_callback, bln_wakelock_release, wake_lock_active, wake_unlock,
      del_timer, bln_enable_backlights_eq, bln_disable_backlights_eq, hc, hb]

/-- What a timer expiry does, as one update of the state. -/
theorem timer_expiry_eq (s : State) :
    timer_expiry s =
      if s.blink_timer.isSome then
        { s with
          blink_work := true
          blink_timer := some (to_u32 s.bln_blink_interval)
          trace := s.trace ++
            [Call.schedule_work, Call.mod_timer (to_u32 s.bln_blink_interval)] }
      else s := by
  obtain ⟨en, og, bs, bi, bm, su, imp, ikb, bc, wl, tm, wk, tf, tr⟩ := s
  cases tm <;>
    simp [timer_expiry, timer_pending, blink_timer_callback, schedule_work, mod_timer]

theorem run_nil (s : State) : run s [] = s := rfl

theorem run_cons (s : State) (op : Op) (ops : List Op) :
    run s (op :: ops) = run (step s op) ops := rfl

theorem run_append (s : State) (xs ys : List Op) :
    run s (xs ++ ys) = run (run s xs) ys := by
  simp [run, List.foldl_append]

/-- A property that holds initially and is preserved by every step holds after any
sequence of steps. -/
theorem run_invariant (P : State → Prop) (hstep : ∀ s op, P s → P (step s op))
    (s : State) (hs : P s) (ops : List Op) : P (run s ops) := by
  induction ops generalizing s with
  | nil => exact hs
  | cons op ops ih => exact ih (step s op) (hstep s op hs)

/-- Every step preserves `bln_ongoing → bln_enabled`. -/
theorem step_ongoing_enabled (s : State) (op : Op)
    (h : s.bln_ongoing = true → s.bln_enabled = true) :
    (step s op).bln_ongoing = true → (step s op).bln_enabled = true := by
  cases op <;>
    simp only [step, backlightnotification_status_write, notification_led_status_write,
      in_kernel_blink_status_write, blink_control_write, blink_interval_write,
      blink_maxtime_write, bln_early_suspend, bln_late_resume, register_bln_implementation,
      run_work, timer_expiry_eq, blink_callback_eq, enable_led_notification_eq,
      disable_led_notification_eq, bln_enable_backlights_eq, bln_disable_backlights_eq] <;>
    (repeat' split) <;> simp_all

/-- Every step preserves "wakelock held implies timer armed". -/
theorem step_lock_timer (s : State) (op : Op)
    (h : s.bln_wake_lock = true → timer_pending s = true) :
    (step s op).bln_wake_lock = true → timer_pending (step s op) = true := by
  cases op <;>
    simp only [step, backlightnotification_status_write, notification_led_status_write,
      in_kernel_blink_status_write, blink_control_write, blink_interval_write,
      blink_maxtime_write, bln_early_suspend, bln_late_resume, register_bln_implementation,
      run_work, timer_expiry_eq, blink_callback_eq, enable_led_notification_eq,
      disable_led_notification_eq, bln_enable_backlights_eq, bln_disable_backlights_eq,
      timer_pending] at h ⊢ <;>
    (repeat' split) <;> simp_all

/-- A step that does not clear `in_kernel_blink` while the timer is armed preserves
"the timer is armed exactly when the wakelock is held, and only in blink mode". -/
theorem step_timer_lock (s : State) (op : Op)
    (hk : (!(timer_pending s && s.in_kernel_blink) || (step s op).in_kernel_blink) = true)
    (h : (timer_pending s = true → s.in_kernel_blink = true) ∧
         (timer_pending s = true ↔ s.bln_wake_lock = true)) :
    (timer_pending (step s op) = true → (step s op).in_kernel_blink = true) ∧
      (timer_pending (step s op) = true ↔ (step s op).bln_wake_lock = true) := by
  obtain ⟨h1, h2⟩ := h
  cases ht : s.blink_timer <;> cases hw : s.bln_wake_lock <;> cases hi : s.in_kernel_blink <;>
    simp only [timer_pending, ht, hw, hi] at h1 h2 hk <;> simp at h1 h2 <;>
  cases op <;>
    simp only [step, backlightnotification_status_write, notification_led_status_write,
      in_kernel_blink_status_write, blink_control_write, blink_interval_write,
      blink_maxtime_write, bln_early_suspend, bln_late_resume, register_bln_implementation,
      run_work, timer_expiry_eq, blink_callback_eq, enable_led_notification_eq,
      disable_led_notification_eq, bln_enable_backlights_eq, bln_disable_backlights_eq,
      timer_pending] at hk ⊢ <;>
    (repeat' split) <;> simp_all

theorem run_timer_lock (s : State) (ops : List Op) (hk : blink_mode_kept s ops = true)
    (h : (timer_pending s = true → s.in_kernel_blink = true) ∧
         (timer_pending s = true ↔ s.bln_wake_lock = true)) :
    (timer_pending (run s ops) = true → (run s ops).in_kernel_blink = true) ∧
      (timer_pending (run s ops) = true ↔ (run s ops).bln_wake_lock = true) := by
  induction ops generalizing s with
  | nil => exact h
  | cons op ops ih =>
    rw [blink_mode_kept, Bool.and_eq_true] at hk
    exact ih (step s op) hk.2 (step_timer_lock s op hk.1 h)

theorem to_u32_lt (x : Int) : to_u32 x < 4294967296 := by
  unfold to_u32
  omega

theorem run_work_eq (s : State) :
    run_work s = if s.blink_work then blink_callback { s with blink_work := false } else s :=
  rfl

/-- While more than one toggle is left, an invocation of the deferred work takes the toggle
branch. -/
theorem blink_callback_toggle (a : State) (hc : 1 < a.blink_count)
    (hlt : a.blink_count < 4294967296) :
    blink_callback a =
      { a with
        blink_count := a.blink_count - 1
        bln_blink_state := if a.bln_blink_state = 0 then 1 else 0
        trace := a.trace ++
          (if a.bln_blink_state ≠ 0 then (a.bln_imp.map Call.imp_enable).toList
           else (a.bln_imp.map Call.imp_disable).toList) } := by
  have h1 : (a.blink_count + 4294967295) % 4294967296 = a.blink_count - 1 := by omega
  have h2 : a.blink_count - 1 ≠ 0 := by omega
  rw [blink_callback_eq, h1, if_neg h2]

/-- When one toggle is left, an invocation of the deferred work takes the timeout branch. -/
theorem blink_callback_timeout (a : State) (hc : a.blink_count = 1) :
    blink_callback a =
      { a with
        blink_count := 0
        bln_wake_lock := false
        blink_timer := none
        trace := a.trace ++ (a.bln_imp.map Call.imp_enable).toList ++ [Call.del_timer] ++
          (if a.bln_wake_lock then [Call.wake_unlock] else []) } := by
  have h1 : (a.blink_count + 4294967295) % 4294967296 = 0 := by omega
  rw [blink_callback_eq, if_pos h1]

/-- The countdown: while fewer invocations have run than the count allows, the count has
gone down by the number of invocations, and timer and wakelock are still in place. -/
theorem countdown_run (es : List Op) :
    ∀ (a : State) (c : Nat), a.blink_count = c → c < 4294967296 →
      a.bln_wake_lock = true → a.blink_timer.isSome = true →
      (∀ e ∈ es, e = Op.timer_expiry ∨ e = Op.run_work ∨ e = Op.blink_callback) →
      invocations a es < c →
      (run a es).blink_count = c - invocations a es ∧
      (run a es).bln_wake_lock = true ∧ (run a es).blink_timer.isSome = true ∧
      (run a es).bln_ongoing = a.bln_ongoing ∧ (run a es).bln_imp = a.bln_imp := by
  induction es with
  | nil =>
    intro a c hc _ hw ht _ _
    simp [run_nil, invocations, hc, hw, ht]
  | cons e es ih =>
    intro a c hc hlt hw ht hes hk
    have hes2 : ∀ e ∈ es, e = Op.timer_expiry ∨ e = Op.run_work ∨ e = Op.blink_callback :=
      fun x hx => hes x (List.mem_cons_of_mem _ hx)
    rw [run_cons]
    rcases hes e (List.mem_cons_self _ _) with rfl | rfl | rfl
    · simp only [invocations, Nat.zero_add] at hk ⊢
      have := ih (step a Op.timer_expiry) c (by simp [step, timer_expiry_eq, ht, hc]) hlt
        (by simp [step, timer_expiry_eq, ht, hw]) (by simp [step, timer_expiry_eq, ht]) hes2 hk
      simpa [step, timer_expiry_eq, ht] using this
    · simp only [invocations] at hk ⊢
      by_cases hq : a.blink_work = true
      · simp only [hq, if_true] at hk ⊢
        have hb : step a Op.run_work =
            { a with
              blink_work := false
              blink_count := a.blink_count - 1
              bln_blink_state := if a.bln_blink_state = 0 then 1 else 0
              trace := a.trace ++
                (if a.bln_blink_state ≠ 0 then (a.bln_imp.map Call.imp_enable).toList
                 else (a.bln_imp.map Call.imp_disable).toList) } := by
          simp only [step, run_work_eq, hq, if_true]
          rw [blink_callback_toggle _ (by simp only; omega) (by simp only; omega)]
        have := ih (step a Op.run_work) (c - 1) (by rw [hb]; simp only; omega) (by omega)
          (by rw [hb]; exact hw) (by rw [hb]; exact ht) hes2 (by omega)
        rw [hb] at this ⊢
        refine ⟨?_, this.2.1, this.2.2.1, this.2.2.2.1, this.2.2.2.2⟩
        rw [this.1]; omega
      · simp only [hq] at hk ⊢
        have hb : step a Op.run_work = a := by simp [step, run_work_eq, hq]
        rw [hb] at hk ⊢
        have := ih a c hc hlt hw ht hes2 (by simpa using hk)
        simpa using this
    · simp only [invocations] at hk ⊢
      have hb : step a Op.blink_callback =
          { a with
            blink_count := a.blink_count - 1
            bln_blink_state := if a.bln_blink_state = 0 then 1 else 0
            trace := a.trace ++
              (if a.bln_blink_state ≠ 0 then (a.bln_imp.map Call.imp_enable).toList
               else (a.bln_imp.map Call.imp_disable).toList) } := by
        simp only [step]
        rw [blink_callback_toggle _ (by omega) (by omega)]
      have := ih (step a Op.blink_callback) (c - 1) (by rw [hb]; simp only; omega) (by omega)
        (by rw [hb]; exact hw) (by rw [hb]; exact ht) hes2 (by omega)
      rw [hb] at this ⊢
      refine ⟨?_, this.2.1, this.2.2.1, this.2.2.2.1, this.2.2.2.2⟩
      rw [this.1]; omega

/-- With no timer armed and no work queued, the kernel does nothing to the driver. -/
theorem run_quiescent (es : List Op) :
    ∀ (a : State), a.blink_timer = none → a.blink_work = false →
      (∀ e ∈ es, e = Op.timer_expiry ∨ e = Op.run_work) → run a es = a := by
  induction es with
  | nil => intro a _ _ _; rfl
  | cons e es ih =>
    intro a ht hq hes
    have hes2 : ∀ e ∈ es, e = Op.timer_expiry ∨ e = Op.run_work :=
      fun x hx => hes x (List.mem_cons_of_mem _ hx)
    rw [run_cons]
    rcases hes e (List.mem_cons_self _ _) with rfl | rfl
    · have hb : step a Op.timer_expiry = a := by simp [step, timer_expiry_eq, ht]
      rw [hb]; exact ih a ht hq hes2
    · have hb : step a Op.run_work = a := by simp [step, run_work_eq, hq]
      rw [hb]; exact ih a ht hq hes2

theorem backlight_lit_timeout (t : List Call) (i : Nat) (w : List Call)
    (hw : w = [] ∨ w = [Call.wake_unlock]) :
    backlight_lit (t ++ [Call.imp_enable i] ++ [Call.del_timer] ++ w) = some true := by
  rcases hw with rfl | rfl <;> simp [backlight_lit, List.foldl_append]

/-- Once the kernel has run the deferred work as often as the count allows, the backlight
is lit, timer and wakelock are gone, and nothing is queued. -/
theorem countdown_quiesce (i : Nat) (es : List Op) :
    ∀ (a : State) (c : Nat), a.blink_count = c → 0 < c → c < 4294967296 →
      a.bln_wake_lock = true → a.blink_timer.isSome = true → a.bln_imp = some i →
      (∀ e ∈ es, e = Op.timer_expiry ∨ e = Op.run_work) →
      c ≤ invocations a es →
      backlight_lit (run a es).trace = some true ∧ (run a es).bln_wake_lock = false ∧
      (run a es).blink_timer = none ∧ (run a es).blink_work = false ∧
      (run a es).blink_count = 0 := by
  induction es with
  | nil =>
    intro a c _ hpos _ _ _ _ _ hk
    simp [invocations] at hk
    omega
  | cons e es ih =>
    intro a c hc hpos hlt hw ht hi hes hk
    have hes2 : ∀ e ∈ es, e = Op.timer_expiry ∨ e = Op.run_work :=
      fun x hx => hes x (List.mem_cons_of_mem _ hx)
    rw [run_cons]
    rcases hes e (List.mem_cons_self _ _) with rfl | rfl
    · simp only [invocations, Nat.zero_add] at hk
      exact ih (step a Op.timer_expiry) c (by simp [step, timer_expiry_eq, ht, hc]) hpos hlt
        (by simp [step, timer_expiry_eq, ht, hw]) (by simp [step, timer_expiry_eq, ht])
        (by simp [step, timer_expiry_eq, ht, hi]) hes2 hk
    · simp only [invocations] at hk
      by_cases hq : a.blink_work = true
      · simp only [hq, if_true] at hk
        by_cases h1 : c = 1
        · have hb : step a Op.run_work =
              { a with
                blink_work := false
                blink_count := 0
                bln_wake_lock := false
                blink_timer := none
                trace := a.trace ++ [Call.imp_enable i] ++ [Call.del_timer] ++
                  [Call.wake_unlock] } := by
            simp only [step, run_work_eq, hq, if_true]
            rw [blink_callback_timeout _ (by simp only; omega)]
            simp [hi, hw]
          rw [run_quiescent es _ (by rw [hb]) (by rw [hb]) hes2, hb]
          exact ⟨backlight_lit_timeout _ _ _ (Or.inr rfl), rfl, rfl, rfl, rfl⟩
        · have hb : step a Op.run_work =
              { a with
                blink_work := false
                blink_count := a.blink_count - 1
                bln_blink_state := if a.bln_blink_state = 0 then 1 else 0
                trace := a.trace ++
                  (if a.bln_blink_state ≠ 0 then (a.bln_imp.map Call.imp_enable).toList
                   else (a.bln_imp.map Call.imp_disable).toList) } := by
            simp only [step, run_work_eq, hq, if_true]
            rw [blink_callback_toggle _ (by simp only; omega) (by simp only; omega)]
          exact ih (step a Op.run_work) (c - 1) (by rw [hb]; simp only; omega) (by omega)
            (by omega) (by rw [hb]; exact hw) (by rw [hb]; exact ht) (by rw [hb]; exact hi)
            hes2 (by omega)
      · simp only [hq] at hk
        have hb : step a Op.run_work = a := by simp [step, run_work_eq, hq]
        rw [hb] at hk ⊢
        exact ih a c hc hpos hlt hw ht hi hes2 (by simpa using hk)

/-- A start in blink mode, repeated: after the first call each further call only replaces
the timer and calls `enable()` again. -/
theorem enable_led_notification_iterate (s : State) (he : s.bln_enabled = true)
    (hk : s.in_kernel_blink = true) (n : Nat) :
    ∃ t : List Call,
      enable_led_notification^[n + 1] s =
        { enable_led_notification s with trace := (enable_led_notification s).trace ++ t } ∧
      t.count Call.wake_lock = 0 ∧ t.countP is_add_timer = 0 := by
  induction n with
  | zero => exact ⟨[], by simp, rfl, rfl⟩
  | succ n ih =>
    obtain ⟨t, ht, h1, h2⟩ := ih
    refine ⟨t ++ [Call.mod_timer (to_u32 s.bln_blink_interval)] ++
      (s.bln_imp.map Call.imp_enable).toList, ?_, ?_, ?_⟩
    · rw [Function.iterate_succ_apply', ht]
      simp [enable_led_notification_eq, he, hk]
    · cases s.bln_imp <;> simp [h1]
    · cases s.bln_imp <;> simp [h2, is_add_timer]

/-- After the timeout of a three-toggle notification nothing is queued; a further direct
call of the work function, which the work queue does not make on its own, wraps
`blink_count` to `2^32 - 1` and calls `disable()`. -/
theorem blink_callback_after_timeout :
    (run init [Op.register (some 7), Op.enabled_write (some 1) 2,
      Op.in_kernel_blink_write (some 1) 2, Op.blink_maxtime_write (some 3) 2,
      Op.notification_led_write (some 1) 2, Op.timer_expiry, Op.run_work, Op.timer_expiry,
      Op.run_work, Op.timer_expiry, Op.run_work]).blink_work = false ∧
    (run init [Op.register (some 7), Op.enabled_write (some 1) 2,
      Op.in_kernel_blink_write (some 1) 2, Op.blink_maxtime_write (some 3) 2,
      Op.notification_led_write (some 1) 2, Op.timer_expiry, Op.run_work, Op.timer_expiry,
      Op.run_work, Op.timer_expiry, Op.run_work, Op.blink_callback]).blink_count
      = 4294967295 ∧
    (run init [Op.register (some 7), Op.enabled_write (some 1) 2,
      Op.in_kernel_blink_write (some 1) 2, Op.blink_maxtime_write (some 3) 2,
      Op.notification_led_write (some 1) 2, Op.timer_expiry, Op.run_work, Op.timer_expiry,
      Op.run_work, Op.timer_expiry, Op.run_work, Op.blink_callback]).trace.getLast?
      = some (Call.imp_disable 7) := by
  decide

theorem to_u32_to_int (d : Nat) (h : d < 4294967296) : to_u32 (to_int d) = d := by
  unfold to_u32 to_int
  split <;> omega

/-- Every step leaves `bln_blink_state` at 0 or 1. -/
theorem step_blink_state (s : State) (op : Op)
    (h : s.bln_blink_state = 0 ∨ s.bln_blink_state = 1) :
    (step s op).bln_blink_state = 0 ∨ (step s op).bln_blink_state = 1 := by
  cases op <;>
    simp only [step, backlightnotification_status_write, notification_led_status_write,
      in_kernel_blink_status_write, blink_control_write, blink_interval_write,
      blink_maxtime_write, bln_early_suspend, bln_late_resume, register_bln_implementation,
      run_work, timer_expiry_eq, blink_callback_eq, enable_led_notification_eq,
      disable_led_notification_eq, bln_enable_backlights_eq, bln_disable_backlights_eq] <;>
    (repeat' split) <;> simp_all

/-- The non-timeout branch of the deferred work, entered when the decremented count is
not zero. -/
theorem blink_callback_no_timeout (a : State) (h : (blink_callback a).blink_count ≠ 0) :
    blink_callback a =
      { a with
        blink_count := (a.blink_count + 4294967295) % 4294967296
        bln_blink_state := if a.bln_blink_state = 0 then 1 else 0
        trace := a.trace ++
          (if a.bln_blink_state ≠ 0 then (a.bln_imp.map Call.imp_enable).toList
           else (a.bln_imp.map Call.imp_disable).toList) } := by
  rw [blink_callback_eq] at h ⊢
  split
  · rename_i h0
    rw [if_pos h0] at h
    exact absurd rfl h
  · rfl

/-- A step that does not clear `in_kernel_blink` while the timer is armed preserves
"while the timer is armed, the driver is in blink mode and a notification is ongoing". -/
theorem step_timer_ongoing (s : State) (op : Op)
    (hk : (!(timer_pending s && s.in_kernel_blink) || (step s op).in_kernel_blink) = true)
    (h : timer_pending s = true → s.in_kernel_blink = true ∧ s.bln_ongoing = true) :
    timer_pending (step s op) = true →
      (step s op).in_kernel_blink = true ∧ (step s op).bln_ongoing = true := by
  cases ht : s.blink_timer <;> cases ho : s.bln_ongoing <;> cases hi : s.in_kernel_blink <;>
    simp only [timer_pending, ht, ho, hi] at h hk <;> simp at h <;>
  cases op <;>
    simp only [step, backlightnotification_status_write, notification_led_status_write,
      in_kernel_blink_status_write, blink_control_write, blink_interval_write,
      blink_maxtime_write, bln_early_suspend, bln_late_resume, register_bln_implementation,
      run_work, timer_expiry_eq, blink_callback_eq, enable_led_notification_eq,
      disable_led_notification_eq, bln_enable_backlights_eq, bln_disable_backlights_eq,
      timer_pending] at hk ⊢ <;>
    (repeat' split) <;> simp_all

theorem run_timer_ongoing (s : State) (ops : List Op) (hk : blink_mode_kept s ops = true)
    (h : timer_pending s = true → s.in_kernel_blink = true ∧ s.bln_ongoing = true) :
    timer_pending (run s ops) = true →
      (run s ops).in_kernel_blink = true ∧ (run s ops).bln_ongoing = true := by
  induction ops generalizing s with
  | nil => exact h
  | cons op ops ih =>
    rw [blink_mode_kept, Bool.and_eq_true] at hk
    exact ih (step s op) hk.2 (step_timer_ongoing s op hk.1 h)

theorem count_lock_imp_enable (o : Option Nat) :
    ((o.map Call.imp_enable).toList.count Call.wake_lock = 0 ∧
     (o.map Call.imp_enable).toList.count Call.wake_unlock = 0) ∧
    ((o.map Call.imp_disable).toList.count Call.wake_lock = 0 ∧
     (o.map Call.imp_disable).toList.count Call.wake_unlock = 0) := by
  cases o <;> simp

/-- Every step keeps the calls to `wake_lock` and `wake_unlock` balanced. -/
theorem step_lock_balanced (s : State) (op : Op) (h : lock_balanced s) :
    lock_balanced (step s op) := by
  unfold lock_balanced at h ⊢
  have e1 := fun o => (count_lock_imp_enable o).1.1
  have e2 := fun o => (count_lock_imp_enable o).1.2
  have d1 := fun o => (count_lock_imp_enable o).2.1
  have d2 := fun o => (count_lock_imp_enable o).2.2
  cases hw : s.bln_wake_lock <;> simp only [hw] at h <;>
  cases op <;>
    simp only [step, backlightnotification_status_write, notification_led_status_write,
      in_kernel_blink_status_write, blink_control_write, blink_interval_write,
      blink_maxtime_write, bln_early_suspend, bln_late_resume, register_bln_implementation,
      run_work, timer_expiry_eq, blink_callback_eq, enable_led_notification_eq,
      disable_led_notification_eq, bln_enable_backlights_eq, bln_disable_backlights_eq] <;>
    (repeat' split) <;>
    simp_all [List.count_append, List.count_cons]

/-- A step that leaves maximum count, interval and `blink_count` alone and arms no timer
keeps the countdown in order. -/
theorem countdown_ok_frame (s t : State) (h : countdown_ok s)
    (h1 : t.bln_blink_max_count = s.bln_blink_max_count)
    (h2 : t.bln_blink_interval = s.bln_blink_interval)
    (h3 : t.blink_count = s.blink_count)
    (h4 : timer_pending t = true → timer_pending s = true) : countdown_ok t := by
  unfold countdown_ok at h ⊢
  rw [h1, h2, h3]
  exact ⟨h.1, h.2.1, h.2.2.1, fun ht => h.2.2.2 (h4 ht)⟩

theorem countdown_ok_enable (s : State) (h : countdown_ok s) :
    countdown_ok (enable_led_notification s) := by
  unfold countdown_ok at h ⊢
  have hlt := to_u32_lt s.bln_blink_max_count
  rw [enable_led_notification_eq]
  cases he : s.bln_enabled <;> cases hk : s.in_kernel_blink <;>
    simp only [Bool.false_eq_true, if_true, if_false, timer_pending] at h ⊢
  · exact h
  · exact h
  · exact h
  · exact ⟨h.1, h.2.1, hlt, fun _ => by omega⟩

theorem countdown_ok_disable (s : State) (h : countdown_ok s) :
    countdown_ok (disable_led_notification s) := by
  refine countdown_ok_frame s _ h ?_ ?_ ?_ ?_ <;>
    simp only [disable_led_notification_eq, timer_pending]
  cases s.in_kernel_blink <;> simp

theorem countdown_ok_blink_callback (s : State) (h : countdown_ok s)
    (ht : timer_pending s = true) : countdown_ok (blink_callback s) := by
  unfold countdown_ok at h ⊢
  have h1 := h.2.2.2 ht
  have h2 := h.2.2.1
  by_cases hc : s.blink_count = 1
  · rw [blink_callback_timeout s hc]
    simp only [timer_pending]
    exact ⟨h.1, h.2.1, by omega, by simp⟩
  · rw [blink_callback_toggle s (by omega) h2]
    simp only [timer_pending] at ht ⊢
    exact ⟨h.1, h.2.1, by omega, fun _ => by omega⟩

theorem countdown_ok_timer_expiry (s : State) (h : countdown_ok s) :
    countdown_ok (timer_expiry s) := by
  rw [timer_expiry_eq]
  split
  · rename_i hp
    refine countdown_ok_frame s _ h rfl rfl rfl (fun _ => hp)
  · exact h

/-- A step with 32-bit data, in which the deferred work runs only while the timer is
armed, keeps the countdown in order. -/
theorem step_countdown_ok (s : State) (op : Op) (hu : op_data_u32 op = true)
    (hw : work_armed_at s op = true)
    (h : countdown_ok s) : countdown_ok (step s op) := by
  cases op with
  | enabled_write buf size =>
    simp only [step, backlightnotification_status_write]
    (repeat' split)
    · exact countdown_ok_frame s _ h rfl rfl rfl (fun x => x)
    · exact countdown_ok_disable _ (countdown_ok_frame s _ h rfl rfl rfl (fun x => x))
    · exact countdown_ok_frame s _ h rfl rfl rfl (fun x => x)
    · exact h
    · exact h
  | notification_led_write buf size =>
    simp only [step, notification_led_status_write]
    (repeat' split)
    · exact countdown_ok_enable s h
    · exact countdown_ok_disable s h
    · exact h
    · exact h
  | in_kernel_blink_write buf size =>
    simp only [step, in_kernel_blink_status_write]
    split
    · exact countdown_ok_frame s _ h rfl rfl rfl (fun x => x)
    · exact h
  | blink_control_write buf size =>
    simp only [step, blink_control_write, bln_enable_backlights_eq,
      bln_disable_backlights_eq]
    (repeat' split)
    · exact h
    · exact countdown_ok_frame s _ h rfl rfl rfl (fun x => x)
    · exact countdown_ok_frame s _ h rfl rfl rfl (fun x => x)
    · exact h
    · exact h
  | blink_interval_write buf size =>
    cases buf with
    | none => exact h
    | some d =>
      simp only [op_data_u32, decide_eq_true_eq] at hu
      simp only [step, blink_interval_write]
      split
      · rename_i hd
        unfold countdown_ok at h ⊢
        simp only [timer_pending] at h ⊢
        rw [to_u32_to_int d hu]
        exact ⟨h.1, by omega, h.2.2.1, h.2.2.2⟩
      · exact h
  | blink_maxtime_write buf size =>
    cases buf with
    | none => exact h
    | some d =>
      simp only [op_data_u32, decide_eq_true_eq] at hu
      simp only [step, blink_maxtime_write]
      split
      · rename_i hd
        unfold countdown_ok at h ⊢
        simp only [timer_pending] at h ⊢
        rw [to_u32_to_int d hu]
        exact ⟨by omega, h.2.1, h.2.2.1, h.2.2.2⟩
      · exact h
  | early_suspend => exact countdown_ok_frame s _ h rfl rfl rfl (fun x => x)
  | late_resume => exact countdown_ok_frame s _ h rfl rfl rfl (fun x => x)
  | register imp => exact countdown_ok_frame s _ h rfl rfl rfl (fun x => x)
  | timer_expiry => exact countdown_ok_timer_expiry s h
  | run_work =>
    simp only [step, run_work_eq]
    split
    · rename_i hq
      simp only [work_armed_at, hq, Bool.not_true, Bool.false_or] at hw
      exact countdown_ok_blink_callback _
        (countdown_ok_frame s _ h rfl rfl rfl (fun x => x)) hw
    · exact h
  | blink_callback => exact countdown_ok_blink_callback s h hw

theorem run_countdown_ok (ops : List Op) :
    ∀ s : State, countdown_ok s → (∀ op ∈ ops, op_data_u32 op = true) →
      work_only_armed s ops = true → countdown_ok (run s ops) := by
  induction ops with
  | nil => intro s h _ _; exact h
  | cons op ops ih =>
    intro s h hu hw
    rw [work_only_armed, Bool.and_eq_true] at hw
    rw [run_cons]
    exact ih (step s op)
      (step_countdown_ok s op (hu op (List.mem_cons_self _ _)) hw.1 h)
      (fun x hx => hu x (List.mem_cons_of_mem _ hx)) hw.2

/-- From a state whose count is `c ≥ 1`, `c` runs of the deferred work delete the timer. -/
theorem blink_callback_iterate_cancels (c : Nat) :
    ∀ a : State, a.blink_count = c → 1 ≤ c → c < 4294967296 →
      timer_pending (blink_callback^[c] a) = false := by
  induction c with
  | zero => intro a _ h _; omega
  | succ n ih =>
    intro a hc _ hlt
    rw [Function.iterate_succ_apply]
    by_cases hn : n = 0
    · subst hn
      rw [Function.iterate_zero_apply, blink_callback_timeout a hc]
      rfl
    · refine ih _ ?_ (by omega) (by omega)
      rw [blink_callback_toggle a (by omega) (by omega)]
      simp only
      omega

/-! ## Claims -/

/-- C1: in every state reached from a state with `enabled = false` and `ongoing = false`
(in particular from the initial state) by any sequence of attribute writes, suspend and
resume edges, registrations, timer expiries and deferred-work invocations, `ongoing`
implies `enabled`. -/
theorem C1_ongoing_implies_enabled (s0 : State) (_he : s0.bln_enabled = false)
    (ho : s0.bln_ongoing = false) (ops : List Op) :
    (run s0 ops).bln_ongoing = true → (run s0 ops).bln_enabled = true :=
  run_invariant (fun s => s.bln_ongoing = true → s.bln_enabled = true)
    step_ongoing_enabled s0 (by simp [ho]) ops

/-- Witness for C1: after `enabled = 1` and `notification_led = 1` from the initial state
a notification is ongoing and the function is enabled. -/
theorem C1_ongoing_implies_enabled_witness :
    init.bln_enabled = false ∧ init.bln_ongoing = false ∧
    (run init [Op.enabled_write (some 1) 2, Op.notification_led_write (some 1) 2]).bln_ongoing
      = true ∧
    (run init [Op.enabled_write (some 1) 2, Op.notification_led_write (some 1) 2]).bln_enabled
      = true :=
  ⟨rfl, rfl, by decide, C1_ongoing_implies_enabled init rfl rfl _ (by decide)⟩

/-- C2, as stated, fails: after `enabled = 1`, `in_kernel_blink = 1`,
`notification_led = 1`, `in_kernel_blink = 0`, `notification_led = 0` the blink timer is
still armed and the wakelock is not held. -/
theorem C2_counterexample :
    timer_pending (run init [Op.enabled_write (some 1) 2, Op.in_kernel_blink_write (some 1) 2,
      Op.notification_led_write (some 1) 2, Op.in_kernel_blink_write (some 0) 2,
      Op.notification_led_write (some 0) 2]) = true ∧
    (run init [Op.enabled_write (some 1) 2, Op.in_kernel_blink_write (some 1) 2,
      Op.notification_led_write (some 1) 2, Op.in_kernel_blink_write (some 0) 2,
      Op.notification_led_write (some 0) 2]).bln_wake_lock = false := by
  decide

/-- C2, amended: in every state reached from the initial state by any sequence of steps the
wakelock is held only while the blink timer is armed; and if the sequence never clears
`in_kernel_blink` while the timer is armed, the timer is armed exactly when the wakelock
is held. -/
theorem C2_wakelock_timer (ops : List Op) :
    ((run init ops).bln_wake_lock = true → timer_pending (run init ops) = true) ∧
    (blink_mode_kept init ops = true →
      (timer_pending (run init ops) = true ↔ (run init ops).bln_wake_lock = true)) :=
  ⟨run_invariant (fun s => s.bln_wake_lock = true → timer_pending s = true)
      step_lock_timer init (by decide) ops,
   fun hk => (run_timer_lock init ops hk (by decide)).2⟩

/-- Witness for C2: the sequence `enabled = 1`, `in_kernel_blink = 1`,
`notification_led = 1` keeps the blink mode, and leaves the timer armed and the wakelock
held. -/
theorem C2_wakelock_timer_witness :
    blink_mode_kept init [Op.enabled_write (some 1) 2, Op.in_kernel_blink_write (some 1) 2,
      Op.notification_led_write (some 1) 2] = true ∧
    (run init [Op.enabled_write (some 1) 2, Op.in_kernel_blink_write (some 1) 2,
      Op.notification_led_write (some 1) 2]).bln_wake_lock = true ∧
    timer_pending (run init [Op.enabled_write (some 1) 2, Op.in_kernel_blink_write (some 1) 2,
      Op.notification_led_write (some 1) 2]) = true :=
  ⟨by decide,
   ((C2_wakelock_timer [Op.enabled_write (some 1) 2, Op.in_kernel_blink_write (some 1) 2,
      Op.notification_led_write (some 1) 2]).2 (by decide)).1 (by decide),
   (C2_wakelock_timer [Op.enabled_write (some 1) 2, Op.in_kernel_blink_write (some 1) 2,
      Op.notification_led_write (some 1) 2]).1 (by decide)⟩

/-- C3 (countdown law): start a notification with `enabled`, `in_kernel_blink` and a
maximum count of `N > 0`, and let timer expiries and invocations of the deferred work
follow in any order. If `k` invocations have run so far, the next invocation (the work
function called directly, or run by the work queue when queued) takes the toggle branch
when `k + 1 < N`: the count becomes `N - (k + 1)`, which is not zero, `bln_blink_state`
flips, exactly one call goes to the registered implementation (`enable()` if the state was
non-zero, `disable()` otherwise), and timer and wakelock stay. When `k + 1 = N` it takes
the timeout branch: `enable()` is called, the timer is deleted and the wakelock released. -/
theorem C3_countdown (s : State) (N : Nat) (hN : 0 < N) (he : s.bln_enabled = true)
    (hk : s.in_kernel_blink = true) (hmax : to_u32 s.bln_blink_max_count = N)
    (es : List Op)
    (hes : ∀ e ∈ es, e = Op.timer_expiry ∨ e = Op.run_work ∨ e = Op.blink_callback)
    (e : Op)
    (hinv : e = Op.blink_callback ∨
      (e = Op.run_work ∧ (run (enable_led_notification s) es).blink_work = true)) :
    (invocations (enable_led_notification s) es + 1 < N →
      (step (run (enable_led_notification s) es) e).blink_count
        = N - (invocations (enable_led_notification s) es + 1) ∧
      (step (run (enable_led_notification s) es) e).blink_count ≠ 0 ∧
      (step (run (enable_led_notification s) es) e).bln_blink_state
        = (if (run (enable_led_notification s) es).bln_blink_state = 0 then 1 else 0) ∧
      (step (run (enable_led_notification s) es) e).trace
        = (run (enable_led_notification s) es).trace ++
          (if (run (enable_led_notification s) es).bln_blink_state ≠ 0
           then (s.bln_imp.map Call.imp_enable).toList
           else (s.bln_imp.map Call.imp_disable).toList) ∧
      timer_pending (step (run (enable_led_notification s) es) e) = true ∧
      (step (run (enable_led_notification s) es) e).bln_wake_lock = true) ∧
    (invocations (enable_led_notification s) es + 1 = N →
      (step (run (enable_led_notification s) es) e).blink_count = 0 ∧
      (step (run (enable_led_notification s) es) e).bln_blink_state
        = (run (enable_led_notification s) es).bln_blink_state ∧
      (step (run (enable_led_notification s) es) e).trace
        = (run (enable_led_notification s) es).trace ++
          (s.bln_imp.map Call.imp_enable).toList ++ [Call.del_timer, Call.wake_unlock] ∧
      timer_pending (step (run (enable_led_notification s) es) e) = false ∧
      (step (run (enable_led_notification s) es) e).bln_wake_lock = false ∧
      (step (run (enable_led_notification s) es) e).bln_ongoing = true) := by
  have h0 : (enable_led_notification s).blink_count = N := by
    simp [enable_led_notification_eq, he, hk, hmax]
  have hw0 : (enable_led_notification s).bln_wake_lock = true := by
    simp [enable_led_notification_eq, he, hk]
  have ht0 : (enable_led_notification s).blink_timer.isSome = true := by
    simp [enable_led_notification_eq, he, hk]
  have hi0 : (enable_led_notification s).bln_imp = s.bln_imp := by
    simp [enable_led_notification_eq, he]
  have ho0 : (enable_led_notification s).bln_ongoing = true := by
    simp [enable_led_notification_eq, he]
  have hlt : N < 4294967296 := hmax ▸ to_u32_lt _
  generalize enable_led_notification s = s0 at *
  have key : invocations s0 es < N →
      (run s0 es).blink_count = N - invocations s0 es ∧
      (run s0 es).bln_wake_lock = true ∧ (run s0 es).blink_timer.isSome = true ∧
      (run s0 es).bln_ongoing = true ∧ (run s0 es).bln_imp = s.bln_imp := by
    intro hlt2
    have := countdown_run es s0 N h0 hlt hw0 ht0 hes hlt2
    rw [ho0, hi0] at this
    exact this
  generalize run s0 es = a at *
  generalize invocations s0 es = k at *
  have hstep : step a e = blink_callback a ∨
      step a e = blink_callback { a with blink_work := false } := by
    rcases hinv with rfl | ⟨rfl, hq⟩
    · exact Or.inl rfl
    · exact Or.inr (by simp [step, run_work_eq, hq])
  constructor
  · intro hk1
    obtain ⟨hc, hw, ht, _, hi⟩ := key (by omega)
    rcases hstep with hb | hb <;> rw [hb] <;>
      rw [blink_callback_toggle _ (by first | omega | (simp only; omega))
        (by first | omega | (simp only; omega))] <;>
      simp [hc, hw, hi, timer_pending, ht] <;> omega
  · intro hk1
    obtain ⟨hc, hw, ht, ho, hi⟩ := key (by omega)
    rcases hstep with hb | hb <;> rw [hb] <;>
      rw [blink_callback_timeout _ (by first | omega | (simp only; omega))] <;>
      simp [hw, hi, timer_pending, ho]

/-- Witness for C3: with a maximum count of 3, after one expiry and one run of the work the
second invocation toggles (count 1 left), and after two the third invocation times out. -/
theorem C3_countdown_witness :
    (step (run (enable_led_notification (run init [Op.register (some 7),
        Op.enabled_write (some 1) 2, Op.in_kernel_blink_write (some 1) 2,
        Op.blink_maxtime_write (some 3) 2]))
      [Op.timer_expiry, Op.run_work, Op.timer_expiry]) Op.run_work).blink_count = 1 ∧
    (step (run (enable_led_notification (run init [Op.register (some 7),
        Op.enabled_write (some 1) 2, Op.in_kernel_blink_write (some 1) 2,
        Op.blink_maxtime_write (some 3) 2]))
      [Op.timer_expiry, Op.run_work, Op.blink_callback]) Op.blink_callback).bln_wake_lock
      = false :=
  ⟨((C3_countdown (run init [Op.register (some 7), Op.enabled_write (some 1) 2,
        Op.in_kernel_blink_write (some 1) 2, Op.blink_maxtime_write (some 3) 2]) 3
      (by decide) (by decide) (by decide) (by decide)
      [Op.timer_expiry, Op.run_work, Op.timer_expiry] (by decide) Op.run_work
      (Or.inr ⟨rfl, by decide⟩)).1 (by decide)).1,
   ((C3_countdown (run init [Op.register (some 7), Op.enabled_write (some 1) 2,
        Op.in_kernel_blink_write (some 1) 2, Op.blink_maxtime_write (some 3) 2]) 3
      (by decide) (by decide) (by decide) (by decide)
      [Op.timer_expiry, Op.run_work, Op.blink_callback] (by decide) Op.blink_callback
      (Or.inl rfl)).2 (by decide)).2.2.2.2.1⟩

/-- C4: in the scenario `enabled = 1`, `in_kernel_blink = 1`, `blink_maxtime = 3`,
`notification_led = 1`, after any sequence of timer expiries and work-queue runs in which
the deferred work has run three times, the last call into the implementation was
`enable()`, the wakelock is released and no timer is armed; and any further timer
expiries and work-queue runs leave the state as it is. -/
theorem C4_blink3_timeout (imp : Nat) (es : List Op)
    (hes : ∀ e ∈ es, e = Op.timer_expiry ∨ e = Op.run_work)
    (h3 : 3 ≤ invocations (scenario_blink3 imp) es) :
    backlight_lit (run (scenario_blink3 imp) es).trace = some true ∧
    (run (scenario_blink3 imp) es).bln_wake_lock = false ∧
    timer_pending (run (scenario_blink3 imp) es) = false ∧
    ∀ more : List Op, (∀ e ∈ more, e = Op.timer_expiry ∨ e = Op.run_work) →
      run (run (scenario_blink3 imp) es) more = run (scenario_blink3 imp) es := by
  have h := countdown_quiesce imp es (scenario_blink3 imp) 3 rfl (by decide) (by decide)
    rfl rfl rfl hes h3
  refine ⟨h.1, h.2.1, ?_, ?_⟩
  · simp [timer_pending, h.2.2.1]
  · intro more hm
    exact run_quiescent more _ h.2.2.1 h.2.2.2.1 hm

/-- Witness for C4: three expiries each followed by a run of the work, then more of both. -/
theorem C4_blink3_timeout_witness :
    3 ≤ invocations (scenario_blink3 7)
      [Op.timer_expiry, Op.run_work, Op.timer_expiry, Op.timer_expiry, Op.run_work,
       Op.timer_expiry, Op.run_work, Op.timer_expiry, Op.run_work] ∧
    backlight_lit (run (scenario_blink3 7)
      [Op.timer_expiry, Op.run_work, Op.timer_expiry, Op.timer_expiry, Op.run_work,
       Op.timer_expiry, Op.run_work, Op.timer_expiry, Op.run_work]).trace = some true :=
  ⟨by decide,
   (C4_blink3_timeout 7
      [Op.timer_expiry, Op.run_work, Op.timer_expiry, Op.timer_expiry, Op.run_work,
       Op.timer_expiry, Op.run_work, Op.timer_expiry, Op.run_work]
      (by decide) (by decide)).1⟩

/-- C5: with `enabled` and `in_kernel_blink` set, `n ≥ 1` consecutive starts leave the same
state as a single start (the trace of calls apart), with the timer armed and the wakelock
held; `wake_lock` is called once if the lock was free and not at all if it was held,
`add_timer` is called once if no timer was armed and not at all if one was (every later
arming is a `mod_timer`), and `add_timer` never meets an armed timer. -/
theorem C5_repeated_start (s : State) (he : s.bln_enabled = true)
    (hk : s.in_kernel_blink = true) (n : Nat) (hn : 1 ≤ n) :
    { enable_led_notification^[n] s with trace := [] }
      = { enable_led_notification s with trace := [] } ∧
    timer_pending (enable_led_notification^[n] s) = true ∧
    (enable_led_notification^[n] s).bln_wake_lock = true ∧
    (enable_led_notification^[n] s).timer_fault = s.timer_fault ∧
    (enable_led_notification^[n] s).trace.count Call.wake_lock
      = s.trace.count Call.wake_lock + (if s.bln_wake_lock then 0 else 1) ∧
    (enable_led_notification^[n] s).trace.countP is_add_timer
      = s.trace.countP is_add_timer + (if timer_pending s then 0 else 1) := by
  obtain ⟨m, rfl⟩ : ∃ m, n = m + 1 := ⟨n - 1, by omega⟩
  obtain ⟨t, ht, h1, h2⟩ := enable_led_notification_iterate s he hk m
  rw [ht]
  refine ⟨rfl, ?_, ?_, ?_, ?_, ?_⟩
  · simp [timer_pending, enable_led_notification_eq, he, hk]
  · simp [enable_led_notification_eq, he, hk]
  · simp [enable_led_notification_eq, he]
  · cases hw : s.bln_wake_lock <;> cases hp : s.blink_timer.isSome <;>
      cases hi : s.bln_imp <;>
      simp [enable_led_notification_eq, he, hk, h1, hw, hp, hi, List.count_append]
  · cases hw : s.bln_wake_lock <;> cases hp : s.blink_timer.isSome <;>
      cases hi : s.bln_imp <;>
      simp [enable_led_notification_eq, he, hk, h2, hw, hp, hi, is_add_timer, timer_pending]

/-- Witness for C5: three starts in a row from the state after `enabled = 1`,
`in_kernel_blink = 1` take the lock once. -/
theorem C5_repeated_start_witness :
    (enable_led_notification^[3] (run init [Op.enabled_write (some 1) 2,
        Op.in_kernel_blink_write (some 1) 2])).trace.count Call.wake_lock
      = (run init [Op.enabled_write (some 1) 2,
          Op.in_kernel_blink_write (some 1) 2]).trace.count Call.wake_lock
        + (if (run init [Op.enabled_write (some 1) 2,
            Op.in_kernel_blink_write (some 1) 2]).bln_wake_lock then 0 else 1) :=
  (C5_repeated_start (run init [Op.enabled_write (some 1) 2,
      Op.in_kernel_blink_write (some 1) 2]) (by decide) (by decide) 3 (by decide)).2.2.2.2.1

/-- C6, as stated, fails: after `enabled = 1`, `in_kernel_blink = 1`, `notification_led = 1`
and `in_kernel_blink = 0`, stopping the notification leaves the blink timer armed. -/
theorem C6_counterexample :
    timer_pending (disable_led_notification (run init [Op.enabled_write (some 1) 2,
      Op.in_kernel_blink_write (some 1) 2, Op.notification_led_write (some 1) 2,
      Op.in_kernel_blink_write (some 0) 2])) = true := by
  decide

/-- C6, amended: after `disable_led_notification` no blink timer is armed if
`in_kernel_blink` is set; if it is clear, `del_timer` is not called and the timer is left
as it was. -/
theorem C6_stop_cancels_timer (s : State) :
    (s.in_kernel_blink = true → timer_pending (disable_led_notification s) = false) ∧
    (s.in_kernel_blink = false →
      (disable_led_notification s).blink_timer = s.blink_timer ∧
      Call.del_timer ∉ (disable_led_notification s).trace.drop s.trace.length) := by
  constructor
  · intro hk
    simp [disable_led_notification_eq, timer_pending, hk]
  · intro hk
    cases s.bln_suspended <;> cases s.bln_wake_lock <;> cases s.bln_imp <;>
      simp [disable_led_notification_eq, hk]

/-- Witness for C6: a stop in blink mode cancels the armed timer; a stop with
`in_kernel_blink` clear leaves the timer of the initial state as it was. -/
theorem C6_stop_cancels_timer_witness :
    timer_pending (run init [Op.enabled_write (some 1) 2,
      Op.in_kernel_blink_write (some 1) 2, Op.notification_led_write (some 1) 2]) = true ∧
    timer_pending (disable_led_notification (run init [Op.enabled_write (some 1) 2,
      Op.in_kernel_blink_write (some 1) 2, Op.notification_led_write (some 1) 2])) = false ∧
    (disable_led_notification init).blink_timer = init.blink_timer :=
  ⟨by decide,
   (C6_stop_cancels_timer (run init [Op.enabled_write (some 1) 2,
      Op.in_kernel_blink_write (some 1) 2, Op.notification_led_write (some 1) 2])).1
      (by decide),
   ((C6_stop_cancels_timer init).2 (by decide)).1⟩

/-- C7: `disable_led_notification` sets `bln_blink_state = 0` and `bln_ongoing = false`,
leaves the wakelock released (calling `wake_unlock` only if it was held), and calls
`disable()` of the registered implementation exactly when `bln_suspended` is set: the
calls it makes are, in order, `disable()` if suspended and an implementation is
registered, `del_timer` if `in_kernel_blink`, `wake_unlock` if the lock was held. So after
an early-suspend edge a stop calls `disable()`, and after a late-resume edge it makes no
backlight call. -/
theorem C7_stop_effects (s : State) :
    (disable_led_notification s).bln_blink_state = 0 ∧
    (disable_led_notification s).bln_ongoing = false ∧
    (disable_led_notification s).bln_wake_lock = false ∧
    (disable_led_notification s).trace = s.trace ++
      (if s.bln_suspended then (s.bln_imp.map Call.imp_disable).toList else []) ++
      (if s.in_kernel_blink then [Call.del_timer] else []) ++
      (if s.bln_wake_lock then [Call.wake_unlock] else []) ∧
    (disable_led_notification (bln_early_suspend s)).trace = s.trace ++
      (s.bln_imp.map Call.imp_disable).toList ++
      (if s.in_kernel_blink then [Call.del_timer] else []) ++
      (if s.bln_wake_lock then [Call.wake_unlock] else []) ∧
    (disable_led_notification (bln_late_resume s)).trace = s.trace ++
      (if s.in_kernel_blink then [Call.del_timer] else []) ++
      (if s.bln_wake_lock then [Call.wake_unlock] else []) := by
  simp [disable_led_notification_eq, bln_early_suspend, bln_late_resume]

/-- C8: `enable_led_notification` leaves the state (and so the trace of calls) unchanged
when `bln_enabled` is false. When it is true, it sets `bln_ongoing` and makes one
`enable()` call to the registered implementation, as its last call; if `in_kernel_blink`
is set it also sets `blink_count` to the maximum count, arms the timer with the blink
interval and holds the wakelock; if `in_kernel_blink` is clear, `enable()` is its only
call, and timer, wakelock and `blink_count` stay as they were. -/
theorem C8_start_effects (s : State) :
    (s.bln_enabled = false → enable_led_notification s = s) ∧
    (s.bln_enabled = true →
      (enable_led_notification s).bln_ongoing = true ∧
      (∃ pre : List Call,
        (enable_led_notification s).trace
          = s.trace ++ pre ++ (s.bln_imp.map Call.imp_enable).toList ∧
        (∀ c ∈ pre, ∀ i, c ≠ Call.imp_enable i ∧ c ≠ Call.imp_disable i) ∧
        (s.in_kernel_blink = false → pre = [])) ∧
      (s.in_kernel_blink = true →
        (enable_led_notification s).blink_count = to_u32 s.bln_blink_max_count ∧
        (enable_led_notification s).blink_timer = some (to_u32 s.bln_blink_interval) ∧
        timer_pending (enable_led_notification s) = true ∧
        (enable_led_notification s).bln_wake_lock = true) ∧
      (s.in_kernel_blink = false →
        (enable_led_notification s).blink_timer = s.blink_timer ∧
        (enable_led_notification s).bln_wake_lock = s.bln_wake_lock ∧
        (enable_led_notification s).blink_count = s.blink_count)) := by
  constructor
  · intro he
    simp [enable_led_notification_eq, he]
  · intro he
    refine ⟨by simp [enable_led_notification_eq, he], ?_, ?_, ?_⟩
    · refine ⟨if s.in_kernel_blink then
          (if s.bln_wake_lock then [] else [Call.wake_lock]) ++
          [if s.blink_timer.isSome then Call.mod_timer (to_u32 s.bln_blink_interval)
           else Call.add_timer (to_u32 s.bln_blink_interval)]
        else [], by simp [enable_led_notification_eq, he], ?_, ?_⟩
      · cases s.in_kernel_blink <;> cases s.bln_wake_lock <;> cases s.blink_timer <;> simp
      · intro hk; simp [hk]
    · intro hk
      simp [enable_led_notification_eq, he, hk, timer_pending]
    · intro hk
      simp [enable_led_notification_eq, he, hk]

/-- Witness for C8: a start is refused in the initial state, and after `enabled = 1`,
`in_kernel_blink = 1` it arms the timer; after `enabled = 1` alone it leaves it alone. -/
theorem C8_start_effects_witness :
    enable_led_notification init = init ∧
    timer_pending (enable_led_notification (run init [Op.enabled_write (some 1) 2,
      Op.in_kernel_blink_write (some 1) 2])) = true ∧
    (enable_led_notification (run init [Op.enabled_write (some 1) 2])).blink_timer
      = (run init [Op.enabled_write (some 1) 2]).blink_timer :=
  ⟨(C8_start_effects init).1 (by decide),
   (((C8_start_effects (run init [Op.enabled_write (some 1) 2,
      Op.in_kernel_blink_write (some 1) 2])).2 (by decide)).2.2.1 (by decide)).2.2.1,
   (((C8_start_effects (run init [Op.enabled_write (some 1) 2])).2
      (by decide)).2.2.2 (by decide)).1⟩

/-- C9: writing 0 to the `enabled` attribute while a notification is ongoing leaves
`bln_enabled = false`, `bln_ongoing = false` and the wakelock released. -/
theorem C9_disable_while_ongoing (s : State) (size : Nat) (ho : s.bln_ongoing = true) :
    (backlightnotification_status_write s (some 0) size).1.bln_enabled = false ∧
    (backlightnotification_status_write s (some 0) size).1.bln_ongoing = false ∧
    (backlightnotification_status_write s (some 0) size).1.bln_wake_lock = false := by
  simp [backlightnotification_status_write, disable_led_notification_eq, ho]

/-- Witness for C9: the write reaches a blinking notification that holds the wakelock. -/
theorem C9_disable_while_ongoing_witness :
    (run init [Op.enabled_write (some 1) 2, Op.in_kernel_blink_write (some 1) 2,
      Op.notification_led_write (some 1) 2]).bln_wake_lock = true ∧
    (backlightnotification_status_write (run init [Op.enabled_write (some 1) 2,
      Op.in_kernel_blink_write (some 1) 2, Op.notification_led_write (some 1) 2])
      (some 0) 2).1.bln_wake_lock = false :=
  ⟨by decide,
   (C9_disable_while_ongoing (run init [Op.enabled_write (some 1) 2,
      Op.in_kernel_blink_write (some 1) 2, Op.notification_led_write (some 1) 2]) 2
      (by decide)).2.2⟩

/-- C10, as stated, fails: writing 2 to `in_kernel_blink` in the initial state is not
rejected, it sets `in_kernel_blink`. -/
theorem C10_counterexample :
    (in_kernel_blink_status_write init (some 2) 2).1 ≠ init ∧
    (in_kernel_blink_status_write init (some 2) 2).1.in_kernel_blink = true := by
  decide

/-- C10, amended: a parsed value other than 0 and 1 written to `enabled`,
`notification_led` or `blink_control` leaves the whole state unchanged and the write
returns `size`; written to `in_kernel_blink` it is accepted as "true": `in_kernel_blink`
is set, nothing else changes, and the write returns `size`. -/
theorem C10_out_of_range_writes (s : State) (d size : Nat) (h0 : d ≠ 0) (h1 : d ≠ 1) :
    backlightnotification_status_write s (some d) size = (s, size) ∧
    notification_led_status_write s (some d) size = (s, size) ∧
    blink_control_write s (some d) size = (s, size) ∧
    in_kernel_blink_status_write s (some d) size
      = ({ s with in_kernel_blink := true }, size) := by
  refine ⟨?_, ?_, ?_, ?_⟩
  · simp [backlightnotification_status_write, h0, h1]
  · simp [notification_led_status_write, h0, h1]
  · cases ho : s.bln_ongoing <;> simp [blink_control_write, h0, h1, ho]
  · simp [in_kernel_blink_status_write, h0]

/-- Witness for C10: the value 2 written to the four attributes of a blinking
notification. -/
theorem C10_out_of_range_writes_witness :
    blink_control_write (run init [Op.enabled_write (some 1) 2,
      Op.notification_led_write (some 1) 2]) (some 2) 2
      = (run init [Op.enabled_write (some 1) 2, Op.notification_led_write (some 1) 2], 2) :=
  (C10_out_of_range_writes (run init [Op.enabled_write (some 1) 2,
      Op.notification_led_write (some 1) 2]) 2 2 (by decide) (by decide)).2.2.1

/-- C11: writing a value other than 0 and 1 to the `enabled` attribute leaves the whole
state unchanged, so a following read of `enabled` returns what it returned before, and an
ongoing notification stays ongoing. -/
theorem C11_enabled_out_of_range (s : State) (d size : Nat) (h0 : d ≠ 0) (h1 : d ≠ 1) :
    (backlightnotification_status_write s (some d) size).1 = s ∧
    backlightnotification_status_read (backlightnotification_status_write s (some d) size).1
      = backlightnotification_status_read s ∧
    notification_led_status_read (backlightnotification_status_write s (some d) size).1
      = notification_led_status_read s ∧
    (backlightnotification_status_write s (some d) size).2 = size := by
  have h : backlightnotification_status_write s (some d) size = (s, size) := by
    simp [backlightnotification_status_write, h0, h1]
  simp [h]

/-- Witness for C11: `enabled = 2` written while a notification is ongoing. -/
theorem C11_enabled_out_of_range_witness :
    backlightnotification_status_read (backlightnotification_status_write
      (run init [Op.enabled_write (some 1) 2, Op.notification_led_write (some 1) 2])
      (some 2) 2).1 = 1 :=
  (C11_enabled_out_of_range (run init [Op.enabled_write (some 1) 2,
      Op.notification_led_write (some 1) 2]) 2 2 (by decide) (by decide)).2.1.trans
    (by decide)

/-- C12: for every 32-bit unsigned `v > 0`, also `v ≥ 2^31`, a write of `v` to
`blink_interval` followed by a read returns `v` and changes nothing but
`bln_blink_interval`; likewise for `blink_maxtime` and `bln_blink_max_count`. A write of 0
to either leaves the whole state unchanged. -/
theorem C12_interval_maxtime_roundtrip (s : State) (v size : Nat) (hv : 0 < v)
    (h32 : v < 4294967296) :
    blink_interval_read (blink_interval_write s (some v) size).1 = v ∧
    (blink_interval_write s (some v) size).1 = { s with bln_blink_interval := to_int v } ∧
    blink_maxtime_read (blink_maxtime_write s (some v) size).1 = v ∧
    (blink_maxtime_write s (some v) size).1 = { s with bln_blink_max_count := to_int v } ∧
    blink_interval_write s (some 0) size = (s, size) ∧
    blink_maxtime_write s (some 0) size = (s, size) := by
  have hr : to_u32 (to_int v) = v := to_u32_to_int v h32
  simp [blink_interval_read, blink_interval_write, blink_maxtime_read, blink_maxtime_write,
    hv, hr]

/-- Witness for C12: the value `2^32 - 1`, which is stored as the `int` -1, reads back. -/
theorem C12_interval_maxtime_roundtrip_witness :
    (blink_interval_write init (some 4294967295) 2).1.bln_blink_interval = -1 ∧
    blink_interval_read (blink_interval_write init (some 4294967295) 2).1 = 4294967295 :=
  ⟨by decide,
   (C12_interval_maxtime_roundtrip init 4294967295 2 (by decide) (by decide)).1⟩

/-- C13: a write to `blink_control` while no notification is ongoing changes nothing.
While one is ongoing, writing 1 sets `bln_blink_state = 1` and calls `disable()`, writing 0
sets `bln_blink_state = 0` and calls `enable()`; timer, wakelock and `blink_count` are
untouched by any written value. In the scenario `enabled = 1`, `in_kernel_blink = 0`,
`notification_led = 1`, `blink_control = 1`, `blink_control = 0` the calls made are
`enable()`, `disable()`, `enable()` and nothing else, and no timer is armed at any point. -/
theorem C13_manual_toggle (s : State) (buf : Option Nat) (size imp : Nat) :
    (s.bln_ongoing = false → blink_control_write s buf size = (s, size)) ∧
    (s.bln_ongoing = true →
      blink_control_write s (some 1) size =
        ({ s with bln_blink_state := 1
                  trace := s.trace ++ (s.bln_imp.map Call.imp_disable).toList }, size) ∧
      blink_control_write s (some 0) size =
        ({ s with bln_blink_state := 0
                  trace := s.trace ++ (s.bln_imp.map Call.imp_enable).toList }, size)) ∧
    (blink_control_write s buf size).1.blink_timer = s.blink_timer ∧
    (blink_control_write s buf size).1.bln_wake_lock = s.bln_wake_lock ∧
    (blink_control_write s buf size).1.blink_count = s.blink_count ∧
    (run init (manual_blink_ops imp)).trace
      = [Call.imp_enable imp, Call.imp_disable imp, Call.imp_enable imp] ∧
    ∀ k, timer_pending (run init ((manual_blink_ops imp).take k)) = false := by
  refine ⟨?_, ?_, ?_, ?_, ?_, ?_, ?_⟩
  · intro ho
    simp [blink_control_write, ho]
  · intro ho
    simp [blink_control_write, ho, bln_enable_backlights_eq, bln_disable_backlights_eq]
  · simp only [blink_control_write, bln_enable_backlights_eq, bln_disable_backlights_eq]
    (repeat' split) <;> rfl
  · simp only [blink_control_write, bln_enable_backlights_eq, bln_disable_backlights_eq]
    (repeat' split) <;> rfl
  · simp only [blink_control_write, bln_enable_backlights_eq, bln_disable_backlights_eq]
    (repeat' split) <;> rfl
  · rfl
  · intro k
    rcases k with _ | _ | _ | _ | _ | _ | k
    · rfl
    · rfl
    · rfl
    · rfl
    · rfl
    · rfl
    · rw [List.take_of_length_le (by simp [manual_blink_ops])]
      rfl

/-- Witness for C13: `blink_control = 1` before and after `notification_led = 1`. -/
theorem C13_manual_toggle_witness :
    blink_control_write (run init [Op.register (some 7), Op.enabled_write (some 1) 2])
      (some 1) 2
      = (run init [Op.register (some 7), Op.enabled_write (some 1) 2], 2) ∧
    (blink_control_write (run init [Op.register (some 7), Op.enabled_write (some 1) 2,
      Op.notification_led_write (some 1) 2]) (some 1) 2).1.trace
      = [Call.imp_enable 7, Call.imp_disable 7] :=
  ⟨(C13_manual_toggle (run init [Op.register (some 7), Op.enabled_write (some 1) 2])
      (some 1) 2 7).1 (by decide),
   (congrArg (fun p => p.1.trace)
      ((C13_manual_toggle (run init [Op.register (some 7), Op.enabled_write (some 1) 2,
        Op.notification_led_write (some 1) 2]) none 2 7).2.1 (by decide)).1).trans
    (by decide)⟩

/-- C14, as stated, fails: with no implementation registered, a start after `enabled = 1`
is not a no-op, it sets `bln_ongoing`. -/
theorem C14_counterexample :
    (run init [Op.enabled_write (some 1) 2]).bln_imp = none ∧
    (run init [Op.enabled_write (some 1) 2]).bln_ongoing = false ∧
    (enable_led_notification (run init [Op.enabled_write (some 1) 2])).bln_ongoing = true := by
  decide

/-- C14, amended: with no implementation registered, start, stop, the manual toggle and
the deferred work make no backlight call (and, being total functions, do not fail); their
effect on every other part of the state is the one they have with an implementation `i`
registered. -/
theorem C14_no_capability (s : State) (h : s.bln_imp = none) (i : Nat) (buf : Option Nat)
    (size : Nat) :
    ((enable_led_notification s).trace.filter is_backlight_call
        = s.trace.filter is_backlight_call ∧
      { enable_led_notification s with trace := [] }
        = { enable_led_notification { s with bln_imp := some i } with
            bln_imp := none, trace := [] }) ∧
    ((disable_led_notification s).trace.filter is_backlight_call
        = s.trace.filter is_backlight_call ∧
      { disable_led_notification s with trace := [] }
        = { disable_led_notification { s with bln_imp := some i } with
            bln_imp := none, trace := [] }) ∧
    ((blink_control_write s buf size).1.trace.filter is_backlight_call
        = s.trace.filter is_backlight_call ∧
      { (blink_control_write s buf size).1 with trace := [] }
        = { (blink_control_write { s with bln_imp := some i } buf size).1 with
            bln_imp := none, trace := [] }) ∧
    ((blink_callback s).trace.filter is_backlight_call
        = s.trace.filter is_backlight_call ∧
      { blink_callback s with trace := [] }
        = { blink_callback { s with bln_imp := some i } with
            bln_imp := none, trace := [] }) := by
  obtain ⟨en, og, bs, bi, bm, su, imp, ikb, bc, wl, tm, wk, tf, tr⟩ := s
  simp only at h
  subst h
  refine ⟨?_, ?_, ?_, ?_⟩
  · cases en <;> cases ikb <;> cases wl <;> cases tm <;>
      simp [enable_led_notification_eq, is_backlight_call]
  · cases su <;> cases ikb <;> cases wl <;>
      simp [disable_led_notification_eq, is_backlight_call]
  · simp only [blink_control_write, bln_enable_backlights_eq, bln_disable_backlights_eq]
    cases og <;> (repeat' split) <;> simp
  · simp only [blink_callback_eq]
    cases wl <;> (repeat' split) <;> simp_all [is_backlight_call]

/-- Witness for C14: a start with no implementation registered makes no backlight call. -/
theorem C14_no_capability_witness :
    (enable_led_notification (run init [Op.enabled_write (some 1) 2])).trace.filter
      is_backlight_call
      = (run init [Op.enabled_write (some 1) 2]).trace.filter is_backlight_call :=
  (C14_no_capability (run init [Op.enabled_write (some 1) 2]) (by decide) 7 none 2).1.1

/-- C15: when the deferred work finds one toggle left (its decrement reaches zero), it
sets `blink_count` to 0, deletes the timer, releases the wakelock (calling `wake_unlock`
only if it was held) and calls `enable()`; every other field, among them `bln_ongoing`,
`bln_enabled`, `bln_blink_state`, `in_kernel_blink` and `bln_suspended`, is unchanged. So
after the timeout of an ongoing notification `notification_led` still reads 1 while no
timer is armed and the wakelock is not held. -/
theorem C15_timeout_frame (s : State) (hc : s.blink_count = 1) :
    blink_callback s =
      { s with
        blink_count := 0
        blink_timer := none
        bln_wake_lock := false
        trace := s.trace ++ (s.bln_imp.map Call.imp_enable).toList ++ [Call.del_timer] ++
          (if s.bln_wake_lock then [Call.wake_unlock] else []) } ∧
    (blink_callback s).bln_ongoing = s.bln_ongoing ∧
    (blink_callback s).bln_enabled = s.bln_enabled ∧
    (blink_callback s).bln_blink_state = s.bln_blink_state ∧
    (blink_callback s).in_kernel_blink = s.in_kernel_blink ∧
    (blink_callback s).bln_suspended = s.bln_suspended ∧
    (s.bln_ongoing = true →
      notification_led_status_read (blink_callback s) = 1 ∧
      timer_pending (blink_callback s) = false ∧
      (blink_callback s).bln_wake_lock = false) := by
  rw [blink_callback_timeout s hc]
  refine ⟨rfl, rfl, rfl, rfl, rfl, rfl, ?_⟩
  intro ho
  simp [notification_led_status_read, timer_pending, ho]

/-- Witness for C15: a blinking notification with a maximum count of 1 times out at the
first run of the deferred work and still reads as ongoing. -/
theorem C15_timeout_frame_witness :
    notification_led_status_read (blink_callback (run init [Op.enabled_write (some 1) 2,
      Op.in_kernel_blink_write (some 1) 2, Op.blink_maxtime_write (some 1) 2,
      Op.notification_led_write (some 1) 2])) = 1 :=
  ((C15_timeout_frame (run init [Op.enabled_write (some 1) 2,
      Op.in_kernel_blink_write (some 1) 2, Op.blink_maxtime_write (some 1) 2,
      Op.notification_led_write (some 1) 2]) (by decide)).2.2.2.2.2.2 (by decide)).1

/-- C16, as stated, fails: after `enabled = 1`, `in_kernel_blink = 1`,
`notification_led = 1`, `in_kernel_blink = 0`, `notification_led = 0` the timer is still
armed; it expires and the work queue runs the deferred work, which decrements
`blink_count` from 600 to 599 while `in_kernel_blink` and `bln_ongoing` are both false. -/
theorem C16_counterexample :
    timer_pending (run init [Op.enabled_write (some 1) 2, Op.in_kernel_blink_write (some 1) 2,
      Op.notification_led_write (some 1) 2, Op.in_kernel_blink_write (some 0) 2,
      Op.notification_led_write (some 0) 2, Op.timer_expiry]) = true ∧
    (run init [Op.enabled_write (some 1) 2, Op.in_kernel_blink_write (some 1) 2,
      Op.notification_led_write (some 1) 2, Op.in_kernel_blink_write (some 0) 2,
      Op.notification_led_write (some 0) 2, Op.timer_expiry]).blink_work = true ∧
    (run init [Op.enabled_write (some 1) 2, Op.in_kernel_blink_write (some 1) 2,
      Op.notification_led_write (some 1) 2, Op.in_kernel_blink_write (some 0) 2,
      Op.notification_led_write (some 0) 2, Op.timer_expiry]).in_kernel_blink = false ∧
    (run init [Op.enabled_write (some 1) 2, Op.in_kernel_blink_write (some 1) 2,
      Op.notification_led_write (some 1) 2, Op.in_kernel_blink_write (some 0) 2,
      Op.notification_led_write (some 0) 2, Op.timer_expiry]).bln_ongoing = false ∧
    (run init [Op.enabled_write (some 1) 2, Op.in_kernel_blink_write (some 1) 2,
      Op.notification_led_write (some 1) 2, Op.in_kernel_blink_write (some 0) 2,
      Op.notification_led_write (some 0) 2, Op.timer_expiry]).blink_count = 600 ∧
    (run init [Op.enabled_write (some 1) 2, Op.in_kernel_blink_write (some 1) 2,
      Op.notification_led_write (some 1) 2, Op.in_kernel_blink_write (some 0) 2,
      Op.notification_led_write (some 0) 2, Op.timer_expiry, Op.run_work]).blink_count
      = 599 := by
  decide

/-- C16, amended: in every state reached from the initial state by a sequence of steps
that never clears `in_kernel_blink` while the timer is armed, an armed timer implies
`in_kernel_blink` and `bln_ongoing`; so a run of the deferred work that happens while the
timer is armed decrements `blink_count` with both of them true. -/
theorem C16_armed_implies_blinking (ops : List Op) (hk : blink_mode_kept init ops = true)
    (ht : timer_pending (run init ops) = true) :
    (run init ops).in_kernel_blink = true ∧ (run init ops).bln_ongoing = true :=
  run_timer_ongoing init ops hk (by decide) ht

/-- Witness for C16: a blinking notification after one expiry and one run of the work. -/
theorem C16_armed_implies_blinking_witness :
    (run init [Op.enabled_write (some 1) 2, Op.in_kernel_blink_write (some 1) 2,
      Op.notification_led_write (some 1) 2, Op.timer_expiry, Op.run_work]).bln_ongoing
      = true :=
  (C16_armed_implies_blinking [Op.enabled_write (some 1) 2,
      Op.in_kernel_blink_write (some 1) 2, Op.notification_led_write (some 1) 2,
      Op.timer_expiry, Op.run_work] (by decide) (by decide)).2

/-- C17: `bln_wakelock_acquire` calls `wake_lock` only if the lock is not active and
leaves it active; `bln_wakelock_release` calls `wake_unlock` only if the lock is active and
leaves it free; doing either twice is the same as doing it once; and after any sequence of
steps from the initial state the number of `wake_lock` calls exceeds the number of
`wake_unlock` calls by 1 while the lock is held and by 0 otherwise. -/
theorem C17_wakelock_idempotent (s : State) (ops : List Op) :
    (bln_wakelock_acquire s).bln_wake_lock = true ∧
    (bln_wakelock_acquire s).trace
      = s.trace ++ (if s.bln_wake_lock then [] else [Call.wake_lock]) ∧
    (bln_wakelock_release s).bln_wake_lock = false ∧
    (bln_wakelock_release s).trace
      = s.trace ++ (if s.bln_wake_lock then [Call.wake_unlock] else []) ∧
    bln_wakelock_acquire (bln_wakelock_acquire s) = bln_wakelock_acquire s ∧
    bln_wakelock_release (bln_wakelock_release s) = bln_wakelock_release s ∧
    (run init ops).trace.count Call.wake_lock
      = (run init ops).trace.count Call.wake_unlock
        + (if (run init ops).bln_wake_lock then 1 else 0) := by
  refine ⟨?_, ?_, ?_, ?_, ?_, ?_, ?_⟩
  · cases h : s.bln_wake_lock <;> simp [bln_wakelock_acquire, wake_lock_active, wake_lock, h]
  · cases h : s.bln_wake_lock <;> simp [bln_wakelock_acquire, wake_lock_active, wake_lock, h]
  · cases h : s.bln_wake_lock <;>
      simp [bln_wakelock_release, wake_lock_active, wake_unlock, h]
  · cases h : s.bln_wake_lock <;>
      simp [bln_wakelock_release, wake_lock_active, wake_unlock, h]
  · cases h : s.bln_wake_lock <;> simp [bln_wakelock_acquire, wake_lock_active, wake_lock, h]
  · cases h : s.bln_wake_lock <;>
      simp [bln_wakelock_release, wake_lock_active, wake_unlock, h]
  · exact run_invariant lock_balanced step_lock_balanced init (by simp [lock_balanced, init])
      ops

/-- C18: in every state reached from the initial state by attribute writes of 32-bit
values, suspend and resume edges, registrations, timer expiries and runs of the deferred
work that happen only while the timer is armed, maximum count and interval are not zero
(as `int` and as `uint32_t`), and while the timer is armed `blink_count` is at least 1: a
run of the deferred work then leaves `blink_count - 1` without wrapping, and
`blink_count` runs of the deferred work leave the timer deleted. -/
theorem C18_countdown_never_wraps (ops : List Op)
    (hu : ∀ op ∈ ops, op_data_u32 op = true) (hw : work_only_armed init ops = true) :
    (run init ops).bln_blink_max_count ≠ 0 ∧ (run init ops).bln_blink_interval ≠ 0 ∧
    to_u32 (run init ops).bln_blink_max_count ≠ 0 ∧
    to_u32 (run init ops).bln_blink_interval ≠ 0 ∧
    (timer_pending (run init ops) = true →
      1 ≤ (run init ops).blink_count ∧
      (blink_callback (run init ops)).blink_count = (run init ops).blink_count - 1 ∧
      (blink_callback (run init ops)).blink_count ≠ 4294967295 ∧
      timer_pending (blink_callback^[(run init ops).blink_count] (run init ops)) = false) := by
  have h0 : countdown_ok init := by
    unfold countdown_ok
    decide
  have h := run_countdown_ok ops init h0 hu hw
  generalize run init ops = s at h
  unfold countdown_ok at h
  obtain ⟨hm, hi, hlt, hc⟩ := h
  refine ⟨?_, ?_, hm, hi, ?_⟩
  · intro h0
    rw [h0] at hm
    exact hm rfl
  · intro h0
    rw [h0] at hi
    exact hi rfl
  · intro ht
    have h1 := hc ht
    have hd : (blink_callback s).blink_count = s.blink_count - 1 := by
      rw [blink_callback_eq]
      split
      · simp only; omega
      · simp only; omega
    refine ⟨h1, hd, by omega, blink_callback_iterate_cancels _ s rfl h1 hlt⟩

/-- Witness for C18: a blinking notification of at most 2 toggles, after one expiry and
one run of the work: the timer is armed, and one more run of the work deletes it. -/
theorem C18_countdown_never_wraps_witness :
    timer_pending (run init [Op.enabled_write (some 1) 2, Op.in_kernel_blink_write (some 1) 2,
      Op.blink_maxtime_write (some 2) 2, Op.notification_led_write (some 1) 2,
      Op.timer_expiry, Op.run_work]) = true ∧
    (blink_callback (run init [Op.enabled_write (some 1) 2,
      Op.in_kernel_blink_write (some 1) 2, Op.blink_maxtime_write (some 2) 2,
      Op.notification_led_write (some 1) 2, Op.timer_expiry, Op.run_work])).blink_count
      = (run init [Op.enabled_write (some 1) 2, Op.in_kernel_blink_write (some 1) 2,
          Op.blink_maxtime_write (some 2) 2, Op.notification_led_write (some 1) 2,
          Op.timer_expiry, Op.run_work]).blink_count - 1 :=
  ⟨by decide,
   ((C18_countdown_never_wraps [Op.enabled_write (some 1) 2,
      Op.in_kernel_blink_write (some 1) 2, Op.blink_maxtime_write (some 2) 2,
      Op.notification_led_write (some 1) 2, Op.timer_expiry, Op.run_work]
      (by decide) (by decide)).2.2.2.2 (by decide)).2.1⟩

/-- C19: with implementation `i` registered, a run of the deferred work that does not time
out leaves `bln_blink_state = 1` having called `disable()`, or `bln_blink_state = 0` having
called `enable()`, and makes no other call; a write to `blink_control` during a
notification pairs state and call the same way (1 with `disable()`, 0 with `enable()`).
Two runs of the deferred work in a row that do not time out restore `bln_blink_state`
when it was 0 or 1, which it is in every state reached from the initial state. -/
theorem C19_polarity (s : State) (i size : Nat) (himp : s.bln_imp = some i) :
    ((blink_callback s).blink_count ≠ 0 →
      ((blink_callback s).bln_blink_state = 1 ∧
        (blink_callback s).trace = s.trace ++ [Call.imp_disable i]) ∨
      ((blink_callback s).bln_blink_state = 0 ∧
        (blink_callback s).trace = s.trace ++ [Call.imp_enable i])) ∧
    (s.bln_ongoing = true →
      (blink_control_write s (some 1) size).1.bln_blink_state = 1 ∧
      (blink_control_write s (some 1) size).1.trace = s.trace ++ [Call.imp_disable i] ∧
      (blink_control_write s (some 0) size).1.bln_blink_state = 0 ∧
      (blink_control_write s (some 0) size).1.trace = s.trace ++ [Call.imp_enable i]) ∧
    ((s.bln_blink_state = 0 ∨ s.bln_blink_state = 1) →
      (blink_callback s).blink_count ≠ 0 →
      (blink_callback (blink_callback s)).blink_count ≠ 0 →
      (blink_callback (blink_callback s)).bln_blink_state = s.bln_blink_state) ∧
    (∀ ops : List Op,
      (run init ops).bln_blink_state = 0 ∨ (run init ops).bln_blink_state = 1) := by
  refine ⟨?_, ?_, ?_, ?_⟩
  · intro h
    rw [blink_callback_no_timeout s h]
    by_cases hb : s.bln_blink_state = 0
    · exact Or.inl (by simp [hb, himp])
    · exact Or.inr (by simp [hb, himp])
  · intro ho
    simp [blink_control_write, ho, bln_enable_backlights_eq, bln_disable_backlights_eq, himp]
  · intro hb h1 h2
    rw [blink_callback_no_timeout _ h2, blink_callback_no_timeout s h1]
    rcases hb with hb | hb <;> simp [hb]
  · intro ops
    exact run_invariant (fun s => s.bln_blink_state = 0 ∨ s.bln_blink_state = 1)
      step_blink_state init (Or.inl rfl) ops

/-- Witness for C19: the first two runs of the deferred work of a blinking notification. -/
theorem C19_polarity_witness :
    (blink_callback (run init [Op.register (some 7), Op.enabled_write (some 1) 2,
      Op.in_kernel_blink_write (some 1) 2, Op.notification_led_write (some 1) 2])).trace
      = (run init [Op.register (some 7), Op.enabled_write (some 1) 2,
          Op.in_kernel_blink_write (some 1) 2, Op.notification_led_write (some 1) 2]).trace
        ++ [Call.imp_disable 7] ∧
    (blink_callback (blink_callback (run init [Op.register (some 7),
      Op.enabled_write (some 1) 2, Op.in_kernel_blink_write (some 1) 2,
      Op.notification_led_write (some 1) 2]))).bln_blink_state = 0 ∧
    (blink_control_write (run init [Op.register (some 7), Op.enabled_write (some 1) 2,
      Op.in_kernel_blink_write (some 1) 2, Op.notification_led_write (some 1) 2])
      (some 1) 2).1.bln_blink_state = 1 :=
  ⟨(((C19_polarity (run init [Op.register (some 7), Op.enabled_write (some 1) 2,
        Op.in_kernel_blink_write (some 1) 2, Op.notification_led_write (some 1) 2]) 7 2
        (by decide)).1 (by decide)).resolve_right (by decide)).2,
   ((C19_polarity (run init [Op.register (some 7), Op.enabled_write (some 1) 2,
        Op.in_kernel_blink_write (some 1) 2, Op.notification_led_write (some 1) 2]) 7 2
        (by decide)).2.2.1 (by decide) (by decide) (by decide)).trans (by decide),
   ((C19_polarity (run init [Op.register (some 7), Op.enabled_write (some 1) 2,
        Op.in_kernel_blink_write (some 1) 2, Op.notification_led_write (some 1) 2]) 7 2
        (by decide)).2.1 (by decide)).1⟩

end Bln
